import Mathlib

/-!
# rookflex `mount` command: attach / global mount / bind mount pipeline

A shallow embedding of `cmd/rookflex/cmd/mount.go`.  The agent reached over
RPC, the host mounter and the `os` calls are external collaborators: they are
fields of a `System σ` acting on an arbitrary collaborator state `σ`, so a
statement quantified over `System σ` covers every behaviour they may show.
Every call made to a collaborator is appended, with its outcome, to a trace.

The file also embeds the pod template of the OSD operator,
`pkg/operator/osd/osd.go` (`osdContainer`, `podTemplateSpec`), a pure
construction of Kubernetes objects; what it takes from `k8sutil` and `opmon`
is a parameter, `Deps`.
-/

namespace Rookflex

/-! ## Data model -/

/-- The fields of `flexvolume.AttachOptions` that `mount.go` reads or writes
(the struct itself is declared in `pkg/agent/flexvolume`). -/
structure AttachOptions where
  Image : String
  Pool : String
  MountDir : String
  RW : String
  FsType : String
  VolumeName : String
deriving DecidableEq, Repr

/-- Rendering of `fmt.Sprintf` for the verbs used in `mount.go`
(`%s`, `%v`, `%+v`), the operands being already rendered as text. -/
def sprintfChars : List Char → List String → List Char
  | [], _ => []
  | '%' :: 's' :: cs, a :: as => a.toList ++ sprintfChars cs as
  | '%' :: 'v' :: cs, a :: as => a.toList ++ sprintfChars cs as
  | '%' :: '+' :: 'v' :: cs, a :: as => a.toList ++ sprintfChars cs as
  | c :: cs, as => c :: sprintfChars cs as

/-- The Go `fmt.Sprintf`, on rendered operands. -/
def Sprintf (format : String) (args : List String) : String :=
  String.mk (sprintfChars format.toList args)

/-- How `%v` / `%+v` prints a `[]string`. -/
def showStrings (xs : List String) : String :=
  "[" ++ " ".intercalate xs ++ "]"

/-- A Go `error` value as `mount.go` can observe it: either a value handed
back by a collaborator (its text, and whether `os.IsNotExist` holds of it), or
a value built by a `fmt.Errorf(format, args...)` call of this file. -/
inductive GoError where
  | external (text : String) (notExist : Bool)
  | errorf (format : String) (args : List String)
deriving DecidableEq, Repr

/-- The Go `err.Error()`. -/
def GoError.Error : GoError → String
  | .external text _ => text
  | .errorf format args => Sprintf format args

/-- The Go `os.IsNotExist(err)`. -/
def IsNotExist : GoError → Bool
  | .external _ notExist => notExist
  | .errorf _ _ => false

/-- The Go `fmt.Errorf`. -/
def Errorf (format : String) (args : List String) : GoError :=
  GoError.errorf format args

/-- One call made to a collaborator, with what it answered. -/
inductive Event where
  | GetAttachInfoFromMountDir (mountDir : String) (err : Option GoError)
  | Attach (opts : AttachOptions) (devicePath : String) (err : Option GoError)
  | GetGlobalMountPath (volumeName : String) (path : String) (err : Option GoError)
  | Log (message : String) (isError : Bool)
  | IsLikelyNotMountPoint (file : String) (notMnt : Bool) (err : Option GoError)
  | MkdirAll (path : String) (perm : Nat) (err : Option GoError)
  | FormatAndMount (source target fstype : String) (options : List String)
      (err : Option GoError)
  | Mount (source target fstype : String) (options : List String) (err : Option GoError)
  | Unmount (target : String) (err : Option GoError)
  | Remove (name : String) (err : Option GoError)
deriving DecidableEq, Repr

/-- The collaborators of `mount.go`, each a function of the collaborator
state: the RPC client (`getRPCClient`, `client.Call` of the three controller
methods and of `Log`), `json.Unmarshal` into an `AttachOptions`, the
`k8smount` interface, `os.MkdirAll` and `os.Remove`, and the text written to
the standard output while it is redirected. -/
structure System (σ : Type) where
  getRPCClient : σ → Option GoError × σ
  jsonUnmarshal : String → Except GoError AttachOptions
  GetAttachInfoFromMountDir : σ → String → AttachOptions → (Option GoError × AttachOptions) × σ
  Attach : σ → AttachOptions → (Option GoError × String) × σ
  GetGlobalMountPath : σ → String → (Option GoError × String) × σ
  Log : σ → String → Bool → σ
  IsLikelyNotMountPoint : σ → String → (Bool × Option GoError) × σ
  MkdirAll : σ → String → Nat → Option GoError × σ
  FormatAndMount : σ → String → String → String → List String → Option GoError × σ
  Mount : σ → String → String → String → List String → Option GoError × σ
  Unmount : σ → String → Option GoError × σ
  Remove : σ → String → Option GoError × σ
  capturedOutput : σ → String

/-- Collaborator state together with the calls issued so far. -/
structure World (σ : Type) where
  host : σ
  trace : List Event

/-- How a Go function call ends: it returns its `error` result, or panics. -/
inductive Outcome where
  | returned (err : Option GoError)
  | panicked
deriving DecidableEq, Repr

/-! ## Collaborator calls, recorded in the trace -/

/-- Modelled from the spec: `log(client, message, isError)` is defined outside
`mount.go`; it is the Logging side-channel `Log(message: string, isError: bool)`
of the RPC interface, and has no result. -/
def log {σ : Type} (sys : System σ) (message : String) (isError : Bool)
    (w : World σ) : World σ :=
  ⟨sys.Log w.host message isError, w.trace ++ [Event.Log message isError]⟩

/-- Modelled from the spec: `redirectStdout(client, fn)` is defined outside
`mount.go`; it runs `fn` once with the standard output redirected to the
Logging side-channel (reported with `isError = false`) and returns the error of
`fn` unchanged. -/
def redirectStdout {σ : Type} (sys : System σ)
    (fn : World σ → Option GoError × World σ) (w : World σ) :
    Option GoError × World σ :=
  let r := fn w
  (r.1, log sys (sys.capturedOutput r.2.host) false r.2)

/-- The call `client.Call("FlexvolumeController.GetAttachInfoFromMountDir", mountDir, &opts)`. -/
def callGetAttachInfoFromMountDir {σ : Type} (sys : System σ) (mountDir : String)
    (opts : AttachOptions) (w : World σ) : (Option GoError × AttachOptions) × World σ :=
  let r := sys.GetAttachInfoFromMountDir w.host mountDir opts
  (r.1, ⟨r.2, w.trace ++ [Event.GetAttachInfoFromMountDir mountDir r.1.1]⟩)

/-- The call `client.Call("FlexvolumeController.Attach", opts, &devicePath)`. -/
def callAttach {σ : Type} (sys : System σ) (opts : AttachOptions) (w : World σ) :
    (Option GoError × String) × World σ :=
  let r := sys.Attach w.host opts
  (r.1, ⟨r.2, w.trace ++ [Event.Attach opts r.1.2 r.1.1]⟩)

/-- The call `client.Call("FlexvolumeController.GetGlobalMountPath", volumeName, &path)`. -/
def callGetGlobalMountPath {σ : Type} (sys : System σ) (volumeName : String)
    (w : World σ) : (Option GoError × String) × World σ :=
  let r := sys.GetGlobalMountPath w.host volumeName
  (r.1, ⟨r.2, w.trace ++ [Event.GetGlobalMountPath volumeName r.1.2 r.1.1]⟩)

/-- The call `mounter.Interface.IsLikelyNotMountPoint(file)`. -/
def callIsLikelyNotMountPoint {σ : Type} (sys : System σ) (file : String)
    (w : World σ) : (Bool × Option GoError) × World σ :=
  let r := sys.IsLikelyNotMountPoint w.host file
  (r.1, ⟨r.2, w.trace ++ [Event.IsLikelyNotMountPoint file r.1.1 r.1.2]⟩)

/-- The call `os.MkdirAll(path, perm)`. -/
def callMkdirAll {σ : Type} (sys : System σ) (path : String) (perm : Nat)
    (w : World σ) : Option GoError × World σ :=
  let r := sys.MkdirAll w.host path perm
  (r.1, ⟨r.2, w.trace ++ [Event.MkdirAll path perm r.1]⟩)

/-- The call `mounter.FormatAndMount(source, target, fstype, options)`. -/
def callFormatAndMount {σ : Type} (sys : System σ) (source target fstype : String)
    (options : List String) (w : World σ) : Option GoError × World σ :=
  let r := sys.FormatAndMount w.host source target fstype options
  (r.1, ⟨r.2, w.trace ++ [Event.FormatAndMount source target fstype options r.1]⟩)

/-- The call `mounter.Interface.Mount(source, target, fstype, options)`. -/
def callMount {σ : Type} (sys : System σ) (source target fstype : String)
    (options : List String) (w : World σ) : Option GoError × World σ :=
  let r := sys.Mount w.host source target fstype options
  (r.1, ⟨r.2, w.trace ++ [Event.Mount source target fstype options r.1]⟩)

/-- The call `mounter.Interface.Unmount(target)`. -/
def callUnmount {σ : Type} (sys : System σ) (target : String) (w : World σ) :
    Option GoError × World σ :=
  let r := sys.Unmount w.host target
  (r.1, ⟨r.2, w.trace ++ [Event.Unmount target r.1]⟩)

/-- The call `os.Remove(name)`; `mount.go` discards its result. -/
def callRemove {σ : Type} (sys : System σ) (name : String) (w : World σ) : World σ :=
  let r := sys.Remove w.host name
  ⟨r.2, w.trace ++ [Event.Remove name r.1]⟩

/-! ## The functions of `mount.go` -/

/-- The function `attach` of `mount.go`. -/
def attach {σ : Type} (sys : System σ) (opts : AttachOptions) (w : World σ) :
    (String × Option GoError) × World σ :=
  let w1 := log sys (Sprintf "calling agent to attach volume %s/%s" [opts.Pool, opts.Image]) false w
  let r := callAttach sys opts w1
  match r.1.1 with
  | some err =>
    let w2 := log sys
      (Sprintf "Attach volume %s/%s failed: %v" [opts.Pool, opts.Image, err.Error]) true r.2
    (("", some (Errorf "Rook: Mount volume failed: %v" [err.Error])), w2)
  | none => ((r.1.2, none), r.2)

/-- The closure handed to `redirectStdout` by `mountDevice`. -/
def formatAndMountFn {σ : Type} (sys : System σ) (devicePath globalVolumeMountPath : String)
    (opts : AttachOptions) (options : List String) (w : World σ) : Option GoError × World σ :=
  let r := callFormatAndMount sys devicePath globalVolumeMountPath opts.FsType options w
  match r.1 with
  | some err =>
    (some (Errorf "failed to mount volume %s [%s] to %s, error %v"
      [devicePath, opts.FsType, globalVolumeMountPath, err.Error]), r.2)
  | none => (none, r.2)

/-- The function `mountDevice` of `mount.go` from `options := []string{opts.RW}` on,
that is once the probe of the global mount path has settled `notMnt`. -/
def mountDeviceFrom {σ : Type} (sys : System σ) (devicePath globalVolumeMountPath : String)
    (opts : AttachOptions) (notMnt : Bool) (w : World σ) : Option GoError × World σ :=
  let options := [opts.RW]
  if notMnt then
    let r := redirectStdout sys
      (formatAndMountFn sys devicePath globalVolumeMountPath opts options) w
    match r.1 with
    | some err =>
      let w1 := log sys
        (Sprintf "mount volume %s/%s failed: %v" [opts.Pool, opts.Image, err.Error]) true r.2
      let w2 := callRemove sys globalVolumeMountPath w1
      (some err, w2)
    | none =>
      let w1 := log sys
        "Ignore error about Mount failed: exit status 32. Kubernetes does this to check whether the volume has been formatted. It will format and retry again. https://github.com/kubernetes/kubernetes/blob/release-1.7/pkg/util/mount/mount_linux.go#L360"
        false r.2
      let w2 := log sys
        (Sprintf "formatting volume %v devicePath %v deviceMountPath %v fs %v with options %+v"
          [opts.VolumeName, devicePath, globalVolumeMountPath, opts.FsType, showStrings options])
        false w1
      (none, w2)
  else (none, w)

/-- The function `mountDevice` of `mount.go`. -/
def mountDevice {σ : Type} (sys : System σ) (devicePath globalVolumeMountPath : String)
    (opts : AttachOptions) (w : World σ) : Option GoError × World σ :=
  let p := callIsLikelyNotMountPoint sys globalVolumeMountPath w
  match p.1.2 with
  | some err =>
    if IsNotExist err then
      let m := callMkdirAll sys globalVolumeMountPath 0o750 p.2
      match m.1 with
      | some err =>
        (some (Errorf "Rook: Mount volume failed. Cannot create global volume mount path dir: %v"
          [err.Error]), m.2)
      | none => mountDeviceFrom sys devicePath globalVolumeMountPath opts true m.2
    else
      (some (Errorf "Rook: Mount volume failed. Error checking if %s is a mount point: %v"
        [globalVolumeMountPath, err.Error]), p.2)
  | none => mountDeviceFrom sys devicePath globalVolumeMountPath opts p.1.1 p.2

/-- The closure handed to `redirectStdout` by `mount`, from the point where the
bind `Mount` call has failed with `err`. -/
def bindFailed {σ : Type} (sys : System σ) (globalVolumeMountPath : String)
    (opts : AttachOptions) (err : GoError) (w : World σ) : Option GoError × World σ :=
  let p := callIsLikelyNotMountPoint sys opts.MountDir w
  match p.1.2 with
  | some mntErr => (some (Errorf "IsLikelyNotMountPoint check failed: %v" [mntErr.Error]), p.2)
  | none =>
    if !p.1.1 then
      let u := callUnmount sys opts.MountDir p.2
      match u.1 with
      | some mntErr => (some (Errorf "Failed to unmount: %v" [mntErr.Error]), u.2)
      | none =>
        let q := callIsLikelyNotMountPoint sys opts.MountDir u.2
        match q.1.2 with
        | some mntErr =>
          (some (Errorf "IsLikelyNotMountPoint check failed: %v" [mntErr.Error]), q.2)
        | none =>
          if !q.1.1 then
            (some (Errorf
              "%s is still mounted, despite call to unmount().  Will try again next sync loop"
              [opts.MountDir]), q.2)
          else
            let w1 := callRemove sys opts.MountDir q.2
            (some (Errorf "failed to mount volume %s to %s, error %v"
              [globalVolumeMountPath, opts.MountDir, err.Error]), w1)
    else
      let w1 := callRemove sys opts.MountDir p.2
      (some (Errorf "failed to mount volume %s to %s, error %v"
        [globalVolumeMountPath, opts.MountDir, err.Error]), w1)

/-- The closure handed to `redirectStdout` by `mount`. -/
def bindMountFn {σ : Type} (sys : System σ) (globalVolumeMountPath : String)
    (opts : AttachOptions) (options : List String) (w : World σ) : Option GoError × World σ :=
  let r := callMount sys globalVolumeMountPath opts.MountDir "" options w
  match r.1 with
  | some err => bindFailed sys globalVolumeMountPath opts err r.2
  | none => (none, r.2)

/-- The function `mount` of `mount.go`. -/
def mount {σ : Type} (sys : System σ) (globalVolumeMountPath : String)
    (opts : AttachOptions) (w : World σ) : Option GoError × World σ :=
  let w1 := log sys
    (Sprintf "mounting global mount path %s on %s" [globalVolumeMountPath, opts.MountDir]) false w
  let options := [opts.RW, "bind"]
  let r := redirectStdout sys (bindMountFn sys globalVolumeMountPath opts options) w1
  match r.1 with
  | some err =>
    let w2 := log sys
      (Sprintf "mount volume %s/%s failed: %v" [opts.Pool, opts.Image, err.Error]) true r.2
    (some err, w2)
  | none => (none, r.2)

/-- The function `handleMount` of `mount.go`, from the `Attach volume to node`
step on, that is once `opts` is populated. -/
def handleMountFrom {σ : Type} (sys : System σ) (opts : AttachOptions) (w : World σ) :
    Option GoError × World σ :=
  let a := attach sys opts w
  match a.1.2 with
  | some err => (some err, a.2)
  | none =>
    let devicePath := a.1.1
    let g := callGetGlobalMountPath sys opts.VolumeName a.2
    match g.1.1 with
    | some err =>
      let w1 := log sys
        (Sprintf "Attach volume %s/%s failed. Cannot get global volume mount path: %v"
          [opts.Pool, opts.Image, err.Error]) true g.2
      (some (Errorf "Rook: Mount volume failed. Cannot get global volume mount path: %v"
        [err.Error]), w1)
    | none =>
      let globalVolumeMountPath := g.1.2
      let d := mountDevice sys devicePath globalVolumeMountPath opts g.2
      match d.1 with
      | some err => (some err, d.2)
      | none =>
        let b := mount sys globalVolumeMountPath opts d.2
        match b.1 with
        | some err => (some err, b.2)
        | none =>
          let w1 := log sys
            (Sprintf "volume %s/%s has been attached and mounted" [opts.Pool, opts.Image])
            false b.2
          (none, w1)

/-- The function `handleMount` of `mount.go` (the `cobra` command is not used by
the body).  Indexing `args[1]` panics when fewer than two arguments are given. -/
def handleMount {σ : Type} (sys : System σ) (args : List String) (w : World σ) :
    Outcome × World σ :=
  let c := sys.getRPCClient w.host
  let w0 : World σ := ⟨c.2, w.trace⟩
  match c.1 with
  | some err => (.returned (some (Errorf "Rook: Error getting RPC client: %v" [err.Error])), w0)
  | none =>
    match args with
    | args0 :: args1 :: _ =>
      match sys.jsonUnmarshal args1 with
      | .error err =>
        (.returned (some (Errorf "Rook: Could not parse options for mounting %s. Got %v"
          [args1, err.Error])), w0)
      | .ok parsed =>
        let opts0 : AttachOptions := { parsed with MountDir := args0 }
        let i := callGetAttachInfoFromMountDir sys opts0.MountDir opts0 w0
        let opts := i.1.2
        match i.1.1 with
        | some err =>
          let w1 := log sys
            (Sprintf "Attach volume %s/%s failed: %v" [opts.Pool, opts.Image, err.Error]) true i.2
          (.returned (some (Errorf "Rook: Mount volume failed: %v" [err.Error])), w1)
        | none =>
          let r := handleMountFrom sys opts i.2
          (.returned r.1, r.2)
    | _ => (.panicked, w0)

/-! ## Reading a trace -/

/-- Calls to the host: the mounter interface and the `os` directory calls. -/
def Event.isHostOp : Event → Bool
  | .IsLikelyNotMountPoint _ _ _ => true
  | .MkdirAll _ _ _ => true
  | .FormatAndMount _ _ _ _ _ => true
  | .Mount _ _ _ _ _ => true
  | .Unmount _ _ => true
  | .Remove _ _ => true
  | _ => false

/-- The host calls of a trace, in the order issued. -/
def hostOps (tr : List Event) : List Event := tr.filter Event.isHostOp

/-! ## The runs of each function

Each relation lists the control-flow paths of one function: the error it
returns and the calls it issues on that path, for outcomes of the collaborator
calls that select the path. -/

/-- The message `mount` and `mountDevice` log when their redirected step failed. -/
def mountFailedMsg (opts : AttachOptions) (err : GoError) : String :=
  Sprintf "mount volume %s/%s failed: %v" [opts.Pool, opts.Image, err.Error]

/-- The error `mount` builds when the bind mount failed with `err` and the pod
mount directory is found not to be a mount point. -/
def bindMountError (globalVolumeMountPath : String) (opts : AttachOptions) (err : GoError) :
    GoError :=
  Errorf "failed to mount volume %s to %s, error %v"
    [globalVolumeMountPath, opts.MountDir, err.Error]

/-- The error `mount` builds when the pod mount directory is still a mount point
after a successful `Unmount`. -/
def staleMountError (opts : AttachOptions) : GoError :=
  Errorf "%s is still mounted, despite call to unmount().  Will try again next sync loop"
    [opts.MountDir]

/-- The error `mount` builds when `Unmount` failed with `mntErr`. -/
def unmountError (mntErr : GoError) : GoError :=
  Errorf "Failed to unmount: %v" [mntErr.Error]

/-- The error `mount` builds when a probe of the pod mount directory failed. -/
def probeError (mntErr : GoError) : GoError :=
  Errorf "IsLikelyNotMountPoint check failed: %v" [mntErr.Error]

/-- The error `mountDevice` builds when `FormatAndMount` failed with `err`. -/
def formatMountError (devicePath globalVolumeMountPath : String) (opts : AttachOptions)
    (err : GoError) : GoError :=
  Errorf "failed to mount volume %s [%s] to %s, error %v"
    [devicePath, opts.FsType, globalVolumeMountPath, err.Error]

/-- The informational note `mountDevice` logs after `FormatAndMount`. -/
def ignoreExit32Note : String :=
  "Ignore error about Mount failed: exit status 32. Kubernetes does this to check whether the volume has been formatted. It will format and retry again. https://github.com/kubernetes/kubernetes/blob/release-1.7/pkg/util/mount/mount_linux.go#L360"

/-- Paths of `bindFailed`: error returned, calls issued. -/
inductive BindFailedRun (g : String) (opts : AttachOptions) (err : GoError) :
    Option GoError → List Event → Prop where
  | probeFails (nm : Bool) (e1 : GoError) :
      BindFailedRun g opts err (some (probeError e1))
        [Event.IsLikelyNotMountPoint opts.MountDir nm (some e1)]
  | notMounted (re : Option GoError) :
      BindFailedRun g opts err (some (bindMountError g opts err))
        [Event.IsLikelyNotMountPoint opts.MountDir true none, Event.Remove opts.MountDir re]
  | unmountFails (e2 : GoError) :
      BindFailedRun g opts err (some (unmountError e2))
        [Event.IsLikelyNotMountPoint opts.MountDir false none,
          Event.Unmount opts.MountDir (some e2)]
  | reprobeFails (nm : Bool) (e3 : GoError) :
      BindFailedRun g opts err (some (probeError e3))
        [Event.IsLikelyNotMountPoint opts.MountDir false none,
          Event.Unmount opts.MountDir none,
          Event.IsLikelyNotMountPoint opts.MountDir nm (some e3)]
  | stillMounted :
      BindFailedRun g opts err (some (staleMountError opts))
        [Event.IsLikelyNotMountPoint opts.MountDir false none,
          Event.Unmount opts.MountDir none,
          Event.IsLikelyNotMountPoint opts.MountDir false none]
  | unmounted (re : Option GoError) :
      BindFailedRun g opts err (some (bindMountError g opts err))
        [Event.IsLikelyNotMountPoint opts.MountDir false none,
          Event.Unmount opts.MountDir none,
          Event.IsLikelyNotMountPoint opts.MountDir true none,
          Event.Remove opts.MountDir re]

/-- Paths of `mount`. -/
inductive MountRun (g : String) (opts : AttachOptions) : Option GoError → List Event → Prop where
  | bound (out : String) :
      MountRun g opts none
        [Event.Log (Sprintf "mounting global mount path %s on %s" [g, opts.MountDir]) false,
          Event.Mount g opts.MountDir "" [opts.RW, "bind"] none,
          Event.Log out false]
  | bindFails (err x : GoError) (tb : List Event) (out : String)
      (hb : BindFailedRun g opts err (some x) tb) :
      MountRun g opts (some x)
        (Event.Log (Sprintf "mounting global mount path %s on %s" [g, opts.MountDir]) false ::
          Event.Mount g opts.MountDir "" [opts.RW, "bind"] (some err) ::
          (tb ++ [Event.Log out false, Event.Log (mountFailedMsg opts x) true]))

/-- Paths of `mountDeviceFrom` when `notMnt` is true. -/
inductive FormatRun (dp g : String) (opts : AttachOptions) :
    Option GoError → List Event → Prop where
  | formatFails (err : GoError) (out : String) (re : Option GoError) :
      FormatRun dp g opts (some (formatMountError dp g opts err))
        [Event.FormatAndMount dp g opts.FsType [opts.RW] (some err),
          Event.Log out false,
          Event.Log (mountFailedMsg opts (formatMountError dp g opts err)) true,
          Event.Remove g re]
  | formatted (out : String) :
      FormatRun dp g opts none
        [Event.FormatAndMount dp g opts.FsType [opts.RW] none,
          Event.Log out false,
          Event.Log ignoreExit32Note false,
          Event.Log (Sprintf
            "formatting volume %v devicePath %v deviceMountPath %v fs %v with options %+v"
            [opts.VolumeName, dp, g, opts.FsType, showStrings [opts.RW]]) false]

/-- Paths of `mountDevice`. -/
inductive MountDeviceRun (dp g : String) (opts : AttachOptions) :
    Option GoError → List Event → Prop where
  | probeFails (nm : Bool) (e : GoError) (hne : IsNotExist e = false) :
      MountDeviceRun dp g opts
        (some (Errorf "Rook: Mount volume failed. Error checking if %s is a mount point: %v"
          [g, e.Error]))
        [Event.IsLikelyNotMountPoint g nm (some e)]
  | mkdirFails (nm : Bool) (e e2 : GoError) (hne : IsNotExist e = true) :
      MountDeviceRun dp g opts
        (some (Errorf "Rook: Mount volume failed. Cannot create global volume mount path dir: %v"
          [e2.Error]))
        [Event.IsLikelyNotMountPoint g nm (some e), Event.MkdirAll g 0o750 (some e2)]
  | created (nm : Bool) (e : GoError) (hne : IsNotExist e = true) (res : Option GoError)
      (tf : List Event) (hf : FormatRun dp g opts res tf) :
      MountDeviceRun dp g opts res
        (Event.IsLikelyNotMountPoint g nm (some e) :: Event.MkdirAll g 0o750 none :: tf)
  | alreadyMounted :
      MountDeviceRun dp g opts none [Event.IsLikelyNotMountPoint g false none]
  | present (res : Option GoError) (tf : List Event) (hf : FormatRun dp g opts res tf) :
      MountDeviceRun dp g opts res (Event.IsLikelyNotMountPoint g true none :: tf)

/-- Paths of `handleMountFrom`. -/
inductive PipelineRun (opts : AttachOptions) : Option GoError → List Event → Prop where
  | attachFails (dp : String) (e : GoError) :
      PipelineRun opts (some (Errorf "Rook: Mount volume failed: %v" [e.Error]))
        [Event.Log (Sprintf "calling agent to attach volume %s/%s" [opts.Pool, opts.Image]) false,
          Event.Attach opts dp (some e),
          Event.Log (Sprintf "Attach volume %s/%s failed: %v"
            [opts.Pool, opts.Image, e.Error]) true]
  | pathFails (dp g : String) (e : GoError) :
      PipelineRun opts
        (some (Errorf "Rook: Mount volume failed. Cannot get global volume mount path: %v"
          [e.Error]))
        [Event.Log (Sprintf "calling agent to attach volume %s/%s" [opts.Pool, opts.Image]) false,
          Event.Attach opts dp none,
          Event.GetGlobalMountPath opts.VolumeName g (some e),
          Event.Log (Sprintf
            "Attach volume %s/%s failed. Cannot get global volume mount path: %v"
            [opts.Pool, opts.Image, e.Error]) true]
  | mountDeviceFails (dp g : String) (x : GoError) (td : List Event)
      (hd : MountDeviceRun dp g opts (some x) td) :
      PipelineRun opts (some x)
        (Event.Log (Sprintf "calling agent to attach volume %s/%s" [opts.Pool, opts.Image]) false ::
          Event.Attach opts dp none ::
          Event.GetGlobalMountPath opts.VolumeName g none :: td)
  | mountFails (dp g : String) (x : GoError) (td tb : List Event)
      (hd : MountDeviceRun dp g opts none td) (hb : MountRun g opts (some x) tb) :
      PipelineRun opts (some x)
        (Event.Log (Sprintf "calling agent to attach volume %s/%s" [opts.Pool, opts.Image]) false ::
          Event.Attach opts dp none ::
          Event.GetGlobalMountPath opts.VolumeName g none :: (td ++ tb))
  | done (dp g : String) (td tb : List Event)
      (hd : MountDeviceRun dp g opts none td) (hb : MountRun g opts none tb) :
      PipelineRun opts none
        (Event.Log (Sprintf "calling agent to attach volume %s/%s" [opts.Pool, opts.Image]) false ::
          Event.Attach opts dp none ::
          Event.GetGlobalMountPath opts.VolumeName g none ::
          (td ++ tb ++ [Event.Log (Sprintf "volume %s/%s has been attached and mounted"
            [opts.Pool, opts.Image]) false]))

/-- Paths of `handleMount`. -/
inductive HandleMountRun (args : List String) : Outcome → List Event → Prop where
  | noClient (e : GoError) :
      HandleMountRun args
        (.returned (some (Errorf "Rook: Error getting RPC client: %v" [e.Error]))) []
  | tooFewArgs (h : args.length < 2) : HandleMountRun args .panicked []
  | badOptions (args0 args1 : String) (rest : List String) (e : GoError)
      (h : args = args0 :: args1 :: rest) :
      HandleMountRun args
        (.returned (some (Errorf "Rook: Could not parse options for mounting %s. Got %v"
          [args1, e.Error]))) []
  | attachInfoFails (args0 : String) (opts : AttachOptions) (e : GoError)
      (h : args.head? = some args0) :
      HandleMountRun args (.returned (some (Errorf "Rook: Mount volume failed: %v" [e.Error])))
        [Event.GetAttachInfoFromMountDir args0 (some e),
          Event.Log (Sprintf "Attach volume %s/%s failed: %v"
            [opts.Pool, opts.Image, e.Error]) true]
  | pipeline (args0 : String) (opts : AttachOptions) (res : Option GoError) (tp : List Event)
      (h : args.head? = some args0) (hp : PipelineRun opts res tp) :
      HandleMountRun args (.returned res) (Event.GetAttachInfoFromMountDir args0 none :: tp)

/-! ## Kinds of calls, and the stages of the pipeline -/

/-- A `Log` call. -/
def Event.isLog : Event → Bool
  | .Log _ _ => true
  | _ => false

/-- A `Log` call with `isError = true`. -/
def Event.isErrorLog : Event → Bool
  | .Log _ true => true
  | _ => false

/-- A `GetGlobalMountPath` call. -/
def Event.isGetGlobalMountPath : Event → Bool
  | .GetGlobalMountPath _ _ _ => true
  | _ => false

/-- A `FormatAndMount` call. -/
def Event.isFormatAndMount : Event → Bool
  | .FormatAndMount _ _ _ _ _ => true
  | _ => false

/-- A directory creation. -/
def Event.isMkdirAll : Event → Bool
  | .MkdirAll _ _ _ => true
  | _ => false

/-- A directory removal. -/
def Event.isRemove : Event → Bool
  | .Remove _ _ => true
  | _ => false

/-- The stages of `handleMount`: 1 `GetAttachInfoFromMountDir`, 2 `Attach`,
3 `GetGlobalMountPath`, 4 `mountDevice` (Global Mounter), 5 `mount` (Pod Binder).
`ev.inStage k` holds when a call of the kind of `ev` can be issued by stage `k`:
logging accompanies every stage, and both the Global Mounter and the Pod Binder
probe a path and remove a directory. -/
def Event.inStage (k : Nat) : Event → Bool
  | .Log _ _ => true
  | .GetAttachInfoFromMountDir _ _ => k == 1
  | .Attach _ _ _ => k == 2
  | .GetGlobalMountPath _ _ _ => k == 3
  | .MkdirAll _ _ _ => k == 4
  | .FormatAndMount _ _ _ _ _ => k == 4
  | .IsLikelyNotMountPoint _ _ _ => k == 4 || k == 5
  | .Remove _ _ => k == 4 || k == 5
  | .Mount _ _ _ _ _ => k == 5
  | .Unmount _ _ => k == 5

/-- A call whose answer makes its stage fail: an RPC call, `MkdirAll`,
`FormatAndMount` or the bind `Mount` that returns an error, and in the Global
Mounter a probe that fails otherwise than with `path does not exist`. -/
def Event.failsStage (k : Nat) : Event → Bool
  | .GetAttachInfoFromMountDir _ err => err.isSome
  | .Attach _ _ err => err.isSome
  | .GetGlobalMountPath _ _ err => err.isSome
  | .MkdirAll _ _ err => err.isSome
  | .FormatAndMount _ _ _ _ err => err.isSome
  | .Mount _ _ _ _ err => err.isSome
  | .IsLikelyNotMountPoint _ _ (some e) => k == 4 && !IsNotExist e
  | _ => false

/-- The calls of stage `k` show that it failed. -/
def stageFailed (k : Nat) (t : List Event) : Bool := t.any (Event.failsStage k)

/-- The stage issued at least one call other than logging. -/
def stageCalled (t : List Event) : Bool := t.any (fun ev => !ev.isLog)

/-! ## A host with a mount table -/

/-- What it takes for `mounted` to read the mount table of the collaborator
state (`mounted s p` is the source mounted at `p`, if any) with a truthful
probe: a probe that answers reports whether the path is in the table and leaves
the table alone, as do logging and directory removal, and a `Mount` that
succeeds puts its target in the table. -/
structure TruthfulHost {σ : Type} (sys : System σ) (mounted : σ → String → Option String) :
    Prop where
  probe_truthful : ∀ s file, (sys.IsLikelyNotMountPoint s file).1.2 = none →
    (sys.IsLikelyNotMountPoint s file).1.1 = (mounted s file).isNone
  probe_keeps : ∀ s file p, mounted (sys.IsLikelyNotMountPoint s file).2 p = mounted s p
  log_keeps : ∀ s message isError p, mounted (sys.Log s message isError) p = mounted s p
  remove_keeps : ∀ s name p, mounted (sys.Remove s name).2 p = mounted s p
  mount_binds : ∀ s source target fstype options,
    (sys.Mount s source target fstype options).1 = none →
    mounted (sys.Mount s source target fstype options).2 target = some source

/-- State of a simulated host: the mount table (target, source) and the
directories that exist. -/
structure Table where
  mounts : List (String × String)
  dirs : List String
deriving DecidableEq, Repr

/-- The source mounted at `p` in the table. -/
def Table.mounted (t : Table) (p : String) : Option String :=
  (t.mounts.find? (fun m => m.1 == p)).map (fun m => m.2)

/-- Faults injected into the simulated host and agent: the error each call
returns, when it is to fail, and whether `Unmount` reports success without
taking the path out of the table. -/
structure Faults where
  attachInfo : Option GoError
  attach : Option GoError
  globalPath : Option GoError
  probe : Option GoError
  mkdir : Option GoError
  format : Option GoError
  bind : Option GoError
  unmount : Option GoError
  unmountSticks : Bool
deriving DecidableEq, Repr

/-- No fault at all. -/
def Faults.none : Faults :=
  ⟨Option.none, Option.none, Option.none, Option.none, Option.none, Option.none, Option.none,
    Option.none, false⟩

/-- The request of the simulated runs. -/
def sampleOptions : AttachOptions :=
  ⟨"i", "p", "/var/lib/kubelet/pods/x/volumes/v", "rw", "ext4", "v"⟩

/-- The payload of the simulated runs, the empty JSON object. -/
def emptyObject : String := "\x7b\x7d"

/-- The options `json.Unmarshal` leaves for the empty JSON object: every field
at its zero value. -/
def zeroOptions : AttachOptions := ⟨"", "", "", "", "", ""⟩

/-- The simulated `json.Unmarshal`: the empty object parses to the zero options
and the empty payload is rejected, as in Go.  The JSON names of the fields of
`AttachOptions` are declared outside `mount.go`, so no other payload is used in
the simulated runs; here they are rejected. -/
def simulatedUnmarshal (payload : String) : Except GoError AttachOptions :=
  if payload = emptyObject then .ok zeroOptions
  else if payload = "" then .error (.external "unexpected end of JSON input" false)
  else .error (.external "payload not known to the simulation" false)

/-- A simulated agent and host over a mount table, with the given faults.  The
agent fills the pool, image, volume name, filesystem type and read/write mode of
the request from the mount directory.  The
probe reads the table; `Mount` and `FormatAndMount` add to it and `Unmount`
takes from it; removing a mount point fails. -/
def tableSystem (f : Faults) : System Table where
  getRPCClient := fun t => (Option.none, t)
  jsonUnmarshal := simulatedUnmarshal
  GetAttachInfoFromMountDir := fun t _ opts =>
    match f.attachInfo with
    | some e => ((some e, opts), t)
    | Option.none =>
      ((Option.none,
        ⟨sampleOptions.Image, sampleOptions.Pool, opts.MountDir, sampleOptions.RW,
          sampleOptions.FsType, sampleOptions.VolumeName⟩), t)
  Attach := fun t _ => ((f.attach, "/dev/rbd0"), t)
  GetGlobalMountPath := fun t volumeName =>
    ((f.globalPath, "/var/lib/rook/mounts/" ++ volumeName), t)
  Log := fun t _ _ => t
  IsLikelyNotMountPoint := fun t file =>
    match f.probe with
    | some e => ((true, some e), t)
    | Option.none =>
      if (t.mounted file).isSome then ((false, Option.none), t)
      else if file ∈ t.dirs then ((true, Option.none), t)
      else ((true, some (.external "no such file or directory" true)), t)
  MkdirAll := fun t path _ =>
    match f.mkdir with
    | some e => (some e, t)
    | Option.none => (Option.none, ⟨t.mounts, path :: t.dirs⟩)
  FormatAndMount := fun t source target _ _ =>
    match f.format with
    | some e => (some e, t)
    | Option.none => (Option.none, ⟨(target, source) :: t.mounts, t.dirs⟩)
  Mount := fun t source target _ _ =>
    match f.bind with
    | some e => (some e, t)
    | Option.none => (Option.none, ⟨(target, source) :: t.mounts, t.dirs⟩)
  Unmount := fun t target =>
    match f.unmount with
    | some e => (some e, t)
    | Option.none =>
      if f.unmountSticks then (Option.none, t)
      else (Option.none, ⟨t.mounts.filter (fun m => m.1 != target), t.dirs⟩)
  Remove := fun t name =>
    if (t.mounted name).isSome then (some (.external "device or resource busy" false), t)
    else (Option.none, ⟨t.mounts, t.dirs.filter (fun d => d != name)⟩)
  capturedOutput := fun _ => ""

/-- The error of a `mount(8)` run that exits with status 32. -/
def exitStatus32 : GoError := .external "mount failed: exit status 32" false

/-- A host error that is not `path does not exist`. -/
def permissionDenied : GoError := .external "permission denied" false

/-- The global mount path the simulated agent answers for `sampleOptions`. -/
def sampleGlobalPath : String := "/var/lib/rook/mounts/v"

/-- Host on which the pod mount directory exists and nothing is mounted. -/
def freshPodDir : Table := ⟨[], [sampleOptions.MountDir]⟩

/-- Host on which the pod mount directory is a stale mount point. -/
def stalePodDir : Table := ⟨[(sampleOptions.MountDir, "/old")], [sampleOptions.MountDir]⟩

/-- Host on which the global mount path is already a mount point. -/
def globallyMounted : Table := ⟨[(sampleGlobalPath, "/dev/rbd0")], [sampleGlobalPath]⟩

/-- Host on which the global mount path exists and is not mounted. -/
def globalDirPresent : Table := ⟨[], [sampleGlobalPath]⟩

/-- Host with no directory and no mount. -/
def emptyHost : Table := ⟨[], []⟩

/-- The bind `Mount` fails. -/
def bindBroken : Faults := { Faults.none with bind := some exitStatus32 }

/-- The bind `Mount` fails and `Unmount` fails. -/
def bindAndUnmountBroken : Faults :=
  { Faults.none with bind := some exitStatus32, unmount := some permissionDenied }

/-- The bind `Mount` fails and `Unmount` reports success without unmounting. -/
def bindBrokenUnmountSticks : Faults :=
  { Faults.none with bind := some exitStatus32, unmountSticks := true }

/-- `FormatAndMount` fails with exit status 32. -/
def formatExit32 : Faults := { Faults.none with format := some exitStatus32 }

/-- Every probe fails with `permission denied`. -/
def probeDenied : Faults := { Faults.none with probe := some permissionDenied }

/-- `Attach` fails. -/
def attachRefused : Faults :=
  { Faults.none with attach := some (.external "volume not found" false) }

/-- Creating a directory fails with `permission denied`. -/
def mkdirDenied : Faults := { Faults.none with mkdir := some permissionDenied }

/-- A bind `Mount` call. -/
def Event.isMount : Event → Bool
  | .Mount _ _ _ _ _ => true
  | _ => false

/-- The bind `Mount` fails and every probe fails with `permission denied`. -/
def bindBrokenProbeDenied : Faults :=
  { Faults.none with bind := some exitStatus32, probe := some permissionDenied }

/-- What it takes for `mounted` to read the mount table of the collaborator
state with a probe that reports it: the probe of a path in the table answers,
an answer of the probe says whether the path is in the table, the probe and
logging leave the table alone, and a `FormatAndMount` that succeeds puts its
target in the table. -/
structure ReportingHost {σ : Type} (sys : System σ) (mounted : σ → String → Option String) :
    Prop where
  probe_answers : ∀ s file, mounted s file ≠ none →
    (sys.IsLikelyNotMountPoint s file).1.2 = none
  probe_truthful : ∀ s file, (sys.IsLikelyNotMountPoint s file).1.2 = none →
    (sys.IsLikelyNotMountPoint s file).1.1 = (mounted s file).isNone
  probe_keeps : ∀ s file p, mounted (sys.IsLikelyNotMountPoint s file).2 p = mounted s p
  log_keeps : ∀ s message isError p, mounted (sys.Log s message isError) p = mounted s p
  format_mounts : ∀ s source target fstype options,
    (sys.FormatAndMount s source target fstype options).1 = none →
    mounted (sys.FormatAndMount s source target fstype options).2 target ≠ none

/-! ## The OSD pod template (`pkg/operator/osd/osd.go`) -/

/-- The constants `appName` and `appNameFmt` of `osd.go`. -/
def appName : String := "rook-ceph-osd"

/-- See `appName`. -/
def appNameFmt : String := "rook-ceph-osd-%s"

/-- The field of `Device` that `osd.go` reads (the type is declared in another
file of the package). -/
structure Device where
  Name : String
deriving DecidableEq, Repr

/-- The field of `Directory` that `osd.go` reads. -/
structure Directory where
  Path : String
deriving DecidableEq, Repr

/-- The fields of `Selection` that `osd.go` reads, and the optional flag that
`getUseAllDevices` is about. -/
structure Selection where
  UseAllDevices : Option Bool
  DeviceFilter : String
  MetadataDevice : String
deriving DecidableEq, Repr

/-- The fields of `StoreConfig` that `osd.go` reads. -/
structure StoreConfig where
  StoreType : String
  DatabaseSizeMB : Int
  WalSizeMB : Int
  JournalSizeMB : Int
deriving DecidableEq, Repr

/-- The fields of `Config` that `osd.go` reads. -/
structure Config where
  StoreConfig : StoreConfig
  Location : String
deriving DecidableEq, Repr

/-- The sources of `v1.EnvVarSource` used by the operator. -/
inductive EnvVarSource where
  | FieldRef (FieldPath : String)
  | SecretKeyRef (Name Key : String)
  | ConfigMapKeyRef (Name Key : String)
deriving DecidableEq, Repr

/-- The Kubernetes `v1.EnvVar`. -/
structure EnvVar where
  Name : String
  Value : String
  ValueFrom : Option EnvVarSource
deriving DecidableEq, Repr

/-- The Kubernetes `v1.VolumeSource`, for the sources used by the operator: an
empty directory, a host path, a config map. -/
structure VolumeSource where
  EmptyDir : Bool
  HostPath : Option String
  ConfigMap : Option String
deriving DecidableEq, Repr

/-- The Kubernetes `v1.Volume`. -/
structure Volume where
  Name : String
  VolumeSource : VolumeSource
deriving DecidableEq, Repr

/-- The Kubernetes `v1.VolumeMount`. -/
structure VolumeMount where
  Name : String
  MountPath : String
deriving DecidableEq, Repr

/-- The fields of the Kubernetes `v1.Container` that `osd.go` sets. -/
structure Container where
  Args : List String
  Name : String
  Image : String
  VolumeMounts : List VolumeMount
  Env : List EnvVar
  Privileged : Option Bool
deriving DecidableEq, Repr

/-- The fields of the Kubernetes `v1.PodSpec` that `osd.go` sets. -/
structure PodSpec where
  ServiceAccountName : String
  Containers : List Container
  RestartPolicy : String
  Volumes : List Volume
  HostNetwork : Bool
  DNSPolicy : String
deriving DecidableEq, Repr

/-- The fields of the Kubernetes `v1.PodTemplateSpec` that `osd.go` sets. -/
structure PodTemplateSpec where
  Name : String
  Labels : List (String × String)
  Annotations : List (String × String)
  Spec : PodSpec
deriving DecidableEq, Repr

/-- The declarations of `k8sutil`, `opmon` and of the rest of the `osd` package
that `osd.go` uses and does not define; `ApplyToPodSpec` is the method of the
cluster's `placement`. -/
structure Deps where
  DataDirVolume : String
  DataDir : String
  ConfigOverrideVolume : Volume
  ConfigOverrideMount : VolumeMount
  PathToVolumeName : String → String
  PrivateIPEnvVar : String
  PublicIPEnvVar : String
  PodIPEnvVar : String → EnvVar
  ClusterNameEnvVar : String → EnvVar
  EndpointEnvVar : EnvVar
  SecretEnvVar : EnvVar
  AdminSecretEnvVar : EnvVar
  ConfigDirEnvVar : EnvVar
  ConfigOverrideEnvVar : EnvVar
  MakeRookImage : String → String
  AppAttr : String
  ClusterAttr : String
  getUseAllDevices : Selection → Bool
  ApplyToPodSpec : PodSpec → PodSpec

/-- The fields of `Cluster` that the pod template depends on. -/
structure Cluster where
  Namespace : String
  Version : String
  dataDirHostPath : String
  HostNetwork : Bool
deriving DecidableEq, Repr

/-- The Go `strconv.Itoa`. -/
def Itoa (n : Int) : String := toString n

/-- The Go `strings.Join`. -/
def Join (elems : List String) (sep : String) : String := sep.intercalate elems

/-- The function `nodeNameEnvVar` of `osd.go`. -/
def nodeNameEnvVar : EnvVar :=
  { Name := "ROOK_NODE_NAME", Value := "", ValueFrom := some (.FieldRef "spec.nodeName") }

/-- The function `dataDevicesEnvVar` of `osd.go`. -/
def dataDevicesEnvVar (dataDevices : String) : EnvVar :=
  { Name := "ROOK_DATA_DEVICES", Value := dataDevices, ValueFrom := none }

/-- The function `deviceFilterEnvVar` of `osd.go`. -/
def deviceFilterEnvVar (filter : String) : EnvVar :=
  { Name := "ROOK_DATA_DEVICE_FILTER", Value := filter, ValueFrom := none }

/-- The function `metadataDeviceEnvVar` of `osd.go`. -/
def metadataDeviceEnvVar (metadataDevice : String) : EnvVar :=
  { Name := "ROOK_METADATA_DEVICE", Value := metadataDevice, ValueFrom := none }

/-- The function `dataDirectoriesEnvVar` of `osd.go`. -/
def dataDirectoriesEnvVar (dataDirectories : String) : EnvVar :=
  { Name := "ROOK_DATA_DIRECTORIES", Value := dataDirectories, ValueFrom := none }

/-- The function `osdStoreEnvVar` of `osd.go`. -/
def osdStoreEnvVar (osdStore : String) : EnvVar :=
  { Name := "ROOK_OSD_STORE", Value := osdStore, ValueFrom := none }

/-- The function `osdDatabaseSizeEnvVar` of `osd.go`. -/
def osdDatabaseSizeEnvVar (databaseSize : Int) : EnvVar :=
  { Name := "ROOK_OSD_DATABASE_SIZE", Value := Itoa databaseSize, ValueFrom := none }

/-- The function `osdWalSizeEnvVar` of `osd.go`. -/
def osdWalSizeEnvVar (walSize : Int) : EnvVar :=
  { Name := "ROOK_OSD_WAL_SIZE", Value := Itoa walSize, ValueFrom := none }

/-- The function `osdJournalSizeEnvVar` of `osd.go`. -/
def osdJournalSizeEnvVar (journalSize : Int) : EnvVar :=
  { Name := "ROOK_OSD_JOURNAL_SIZE", Value := Itoa journalSize, ValueFrom := none }

/-- The function `locationEnvVar` of `osd.go`. -/
def locationEnvVar (location : String) : EnvVar :=
  { Name := "ROOK_LOCATION", Value := location, ValueFrom := none }

/-- The nine variables `osdContainer` starts `envVars` with. -/
def baseEnvVars (k : Deps) (c : Cluster) : List EnvVar :=
  [nodeNameEnvVar,
    k.PodIPEnvVar k.PrivateIPEnvVar,
    k.PodIPEnvVar k.PublicIPEnvVar,
    k.ClusterNameEnvVar c.Namespace,
    k.EndpointEnvVar,
    k.SecretEnvVar,
    k.AdminSecretEnvVar,
    k.ConfigDirEnvVar,
    k.ConfigOverrideEnvVar]

/-- The device selection step of `osdContainer`: the variables it appends to
`envVars` (device list, then device filter, then use-all-devices). -/
def deviceSelectionEnvVars (k : Deps) (devices : List Device) (selection : Selection) :
    List EnvVar :=
  if devices.length > 0 then
    let deviceNames := devices.map (fun d => d.Name)
    [dataDevicesEnvVar (Join deviceNames ",")]
  else if selection.DeviceFilter ≠ "" then
    [deviceFilterEnvVar selection.DeviceFilter]
  else if k.getUseAllDevices selection then
    [deviceFilterEnvVar "all"]
  else []

/-- The loop of `osdContainer` over `directories`: one volume mount appended for
each directory. -/
def appendDirMounts (k : Deps) (volumeMounts : List VolumeMount) (directories : List Directory) :
    List VolumeMount :=
  directories.foldl
    (fun acc d => acc ++ [{ Name := k.PathToVolumeName d.Path, MountPath := d.Path }])
    volumeMounts

/-- The method `osdContainer` of `osd.go`. -/
def osdContainer (k : Deps) (c : Cluster) (devices : List Device)
    (directories : List Directory) (selection : Selection) (config : Config) : Container :=
  let envVars := baseEnvVars k c
  let envVars := envVars ++ deviceSelectionEnvVars k devices selection
  let envVars :=
    if selection.MetadataDevice ≠ "" then
      envVars ++ [metadataDeviceEnvVar selection.MetadataDevice]
    else envVars
  let volumeMounts : List VolumeMount :=
    [{ Name := k.DataDirVolume, MountPath := k.DataDir },
      { Name := "devices", MountPath := "/dev" },
      k.ConfigOverrideMount]
  let dirPaths := directories.map (fun d => d.Path)
  let volumeMounts :=
    if directories.length > 0 then appendDirMounts k volumeMounts directories else volumeMounts
  let envVars :=
    if directories.length > 0 then envVars ++ [dataDirectoriesEnvVar (Join dirPaths ",")]
    else envVars
  let envVars :=
    if config.StoreConfig.StoreType ≠ "" then
      envVars ++ [osdStoreEnvVar config.StoreConfig.StoreType]
    else envVars
  let envVars :=
    if config.StoreConfig.DatabaseSizeMB ≠ 0 then
      envVars ++ [osdDatabaseSizeEnvVar config.StoreConfig.DatabaseSizeMB]
    else envVars
  let envVars :=
    if config.StoreConfig.WalSizeMB ≠ 0 then
      envVars ++ [osdWalSizeEnvVar config.StoreConfig.WalSizeMB]
    else envVars
  let envVars :=
    if config.StoreConfig.JournalSizeMB ≠ 0 then
      envVars ++ [osdJournalSizeEnvVar config.StoreConfig.JournalSizeMB]
    else envVars
  let envVars :=
    if config.Location ≠ "" then envVars ++ [locationEnvVar config.Location] else envVars
  { Args := ["osd"]
    Name := appName
    Image := k.MakeRookImage c.Version
    VolumeMounts := volumeMounts
    Env := envVars
    Privileged := some true }

/-- The loop of `podTemplateSpec` over `directories`: one host path volume
appended for each directory. -/
def appendDirVolumes (k : Deps) (volumes : List Volume) (directories : List Directory) :
    List Volume :=
  directories.foldl
    (fun acc d => acc ++
      [{ Name := k.PathToVolumeName d.Path
         VolumeSource := { EmptyDir := false, HostPath := some d.Path, ConfigMap := none } }])
    volumes

/-- The pod spec that `podTemplateSpec` builds, up to the call of
`c.placement.ApplyToPodSpec`. -/
def podSpecBeforePlacement (k : Deps) (c : Cluster) (devices : List Device)
    (directories : List Directory) (selection : Selection) (config : Config) : PodSpec :=
  let dataDirSource : VolumeSource :=
    if c.dataDirHostPath ≠ "" then
      { EmptyDir := false, HostPath := some c.dataDirHostPath, ConfigMap := none }
    else { EmptyDir := true, HostPath := none, ConfigMap := none }
  let volumes : List Volume :=
    [{ Name := k.DataDirVolume, VolumeSource := dataDirSource },
      { Name := "devices"
        VolumeSource := { EmptyDir := false, HostPath := some "/dev", ConfigMap := none } },
      k.ConfigOverrideVolume]
  let volumes := appendDirVolumes k volumes directories
  { ServiceAccountName := appName
    Containers := [osdContainer k c devices directories selection config]
    RestartPolicy := "Always"
    Volumes := volumes
    HostNetwork := c.HostNetwork
    DNSPolicy := if c.HostNetwork then "ClusterFirstWithHostNet" else "" }

/-- The method `podTemplateSpec` of `osd.go`. -/
def podTemplateSpec (k : Deps) (c : Cluster) (devices : List Device)
    (directories : List Directory) (selection : Selection) (config : Config) :
    PodTemplateSpec :=
  { Name := appName
    Labels := [(k.AppAttr, appName), (k.ClusterAttr, c.Namespace)]
    Annotations := []
    Spec := k.ApplyToPodSpec (podSpecBeforePlacement k c devices directories selection config) }

/-- The variables of an environment that carry the name `name`. -/
def envNamed (name : String) (env : List EnvVar) : List EnvVar :=
  env.filter (fun v => v.Name == name)

/-- Declarations of `k8sutil` and `opmon` for the simulated runs. -/
def sampleDeps : Deps where
  DataDirVolume := "rook-data"
  DataDir := "/var/lib/rook"
  ConfigOverrideVolume :=
    { Name := "rook-config-override"
      VolumeSource :=
        { EmptyDir := false, HostPath := none, ConfigMap := some "rook-config-override" } }
  ConfigOverrideMount := { Name := "rook-config-override", MountPath := "/etc/rook/config" }
  PathToVolumeName := fun path =>
    String.mk (path.toList.map (fun ch => if ch.isAlphanum then ch else '-'))
  PrivateIPEnvVar := "ROOK_PRIVATE_IP"
  PublicIPEnvVar := "ROOK_PUBLIC_IP"
  PodIPEnvVar := fun name =>
    { Name := name, Value := "", ValueFrom := some (.FieldRef "status.podIP") }
  ClusterNameEnvVar := fun name =>
    { Name := "ROOK_CLUSTER_NAME", Value := name, ValueFrom := none }
  EndpointEnvVar :=
    { Name := "ROOK_MON_ENDPOINTS", Value := ""
      ValueFrom := some (.ConfigMapKeyRef "rook-ceph-mon-endpoints" "data") }
  SecretEnvVar :=
    { Name := "ROOK_MON_SECRET", Value := ""
      ValueFrom := some (.SecretKeyRef "rook-ceph-mon" "mon-secret") }
  AdminSecretEnvVar :=
    { Name := "ROOK_ADMIN_SECRET", Value := ""
      ValueFrom := some (.SecretKeyRef "rook-ceph-mon" "admin-secret") }
  ConfigDirEnvVar := { Name := "ROOK_CONFIG_DIR", Value := "/var/lib/rook", ValueFrom := none }
  ConfigOverrideEnvVar :=
    { Name := "ROOK_CEPH_CONFIG_OVERRIDE", Value := "/etc/rook/config/override.conf"
      ValueFrom := none }
  MakeRookImage := fun version => "rook/rook:" ++ version
  AppAttr := "app"
  ClusterAttr := "rook_cluster"
  getUseAllDevices := fun selection => selection.UseAllDevices == some true
  ApplyToPodSpec := fun spec => spec

/-- The cluster of the simulated runs. -/
def sampleCluster : Cluster :=
  { Namespace := "rook", Version := "master", dataDirHostPath := "", HostNetwork := false }

/-- A configuration with nothing set. -/
def emptyConfig : Config :=
  { StoreConfig := { StoreType := "", DatabaseSizeMB := 0, WalSizeMB := 0, JournalSizeMB := 0 }
    Location := "" }

/-! ## Every execution follows one of the listed paths -/

/-- Every execution of `bindFailed` appends the calls of one of its paths. -/
theorem bindFailed_run {σ : Type} (sys : System σ) (g : String) (opts : AttachOptions)
    (err : GoError) (w : World σ) :
    ∃ t, (bindFailed sys g opts err w).2.trace = w.trace ++ t
      ∧ BindFailedRun g opts err (bindFailed sys g opts err w).1 t := by
  unfold bindFailed
  simp only [callIsLikelyNotMountPoint, callUnmount, callRemove]
  rcases hp : sys.IsLikelyNotMountPoint w.host opts.MountDir with ⟨⟨nm, _ | e1⟩, s1⟩
  · cases nm
    · simp only [Bool.not_false, if_true]
      rcases hu : sys.Unmount s1 opts.MountDir with ⟨_ | e2, s2⟩
      · simp only []
        rcases hq : sys.IsLikelyNotMountPoint s2 opts.MountDir with ⟨⟨nm2, _ | e3⟩, s3⟩
        · cases nm2
          · exact ⟨_, by simp, .stillMounted⟩
          · exact ⟨_, by simp, .unmounted (sys.Remove s3 opts.MountDir).1⟩
        · exact ⟨_, by simp, .reprobeFails nm2 e3⟩
      · exact ⟨_, by simp, .unmountFails e2⟩
    · exact ⟨_, by simp, .notMounted (sys.Remove s1 opts.MountDir).1⟩
  · exact ⟨_, by simp, .probeFails nm e1⟩

/-- Every execution of `mount` appends the calls of one of its paths. -/
theorem mount_run {σ : Type} (sys : System σ) (g : String) (opts : AttachOptions)
    (w : World σ) :
    ∃ t, (mount sys g opts w).2.trace = w.trace ++ t
      ∧ MountRun g opts (mount sys g opts w).1 t := by
  unfold mount
  simp only [redirectStdout, bindMountFn, callMount, log]
  rcases hm : sys.Mount (sys.Log w.host
      (Sprintf "mounting global mount path %s on %s" [g, opts.MountDir]) false)
      g opts.MountDir "" [opts.RW, "bind"] with ⟨_ | err, s1⟩
  · exact ⟨_, by simp, .bound (sys.capturedOutput s1)⟩
  · simp only []
    generalize hr : bindFailed sys g opts err _ = r
    obtain ⟨tb, htb, hrun⟩ := bindFailed_run sys g opts err
      ⟨s1, w.trace ++ [Event.Log
        (Sprintf "mounting global mount path %s on %s" [g, opts.MountDir]) false]
        ++ [Event.Mount g opts.MountDir "" [opts.RW, "bind"] (some err)]⟩
    rw [hr] at htb hrun
    rcases r with ⟨_ | x, w2⟩
    · cases hrun
    · refine ⟨_, ?_, .bindFails err x tb (sys.capturedOutput w2.host) hrun⟩
      simp only [] at htb
      simp [htb, mountFailedMsg]

/-- Every execution of `mountDeviceFrom` with `notMnt` true follows one of its paths. -/
theorem mountDeviceFrom_run {σ : Type} (sys : System σ) (dp g : String) (opts : AttachOptions)
    (w : World σ) :
    ∃ t, (mountDeviceFrom sys dp g opts true w).2.trace = w.trace ++ t
      ∧ FormatRun dp g opts (mountDeviceFrom sys dp g opts true w).1 t := by
  unfold mountDeviceFrom
  simp only [redirectStdout, formatAndMountFn, callFormatAndMount, callRemove, log, if_true]
  rcases hf : sys.FormatAndMount w.host dp g opts.FsType [opts.RW] with ⟨_ | err, s1⟩
  · exact ⟨_, by simp [ignoreExit32Note], .formatted (sys.capturedOutput s1)⟩
  · refine ⟨_, ?_, .formatFails err (sys.capturedOutput s1)
      (sys.Remove (sys.Log (sys.Log s1 (sys.capturedOutput s1) false)
        (mountFailedMsg opts (formatMountError dp g opts err)) true) g).1⟩
    simp [mountFailedMsg, formatMountError]

/-- Every execution of `mountDevice` appends the calls of one of its paths. -/
theorem mountDevice_run {σ : Type} (sys : System σ) (dp g : String) (opts : AttachOptions)
    (w : World σ) :
    ∃ t, (mountDevice sys dp g opts w).2.trace = w.trace ++ t
      ∧ MountDeviceRun dp g opts (mountDevice sys dp g opts w).1 t := by
  unfold mountDevice
  simp only [callIsLikelyNotMountPoint, callMkdirAll]
  rcases hp : sys.IsLikelyNotMountPoint w.host g with ⟨⟨nm, _ | e⟩, s1⟩
  · cases nm
    · exact ⟨[Event.IsLikelyNotMountPoint g false none], by simp [mountDeviceFrom],
        by simpa [mountDeviceFrom] using .alreadyMounted⟩
    · simp only []
      obtain ⟨tf, htf, hrun⟩ := mountDeviceFrom_run sys dp g opts
        ⟨s1, w.trace ++ [Event.IsLikelyNotMountPoint g true none]⟩
      exact ⟨_, by simp [htf], .present _ tf hrun⟩
  · simp only []
    cases hne : IsNotExist e
    · exact ⟨[Event.IsLikelyNotMountPoint g nm (some e)], by simp,
        by simpa using .probeFails nm e hne⟩
    · simp only [if_true]
      rcases hm : sys.MkdirAll s1 g 0o750 with ⟨_ | e2, s2⟩
      · simp only []
        obtain ⟨tf, htf, hrun⟩ := mountDeviceFrom_run sys dp g opts
          ⟨s2, w.trace ++ [Event.IsLikelyNotMountPoint g nm (some e)]
            ++ [Event.MkdirAll g 0o750 none]⟩
        simp only [List.append_assoc, List.singleton_append] at htf hrun ⊢
        exact ⟨_, by simp [htf], .created nm e hne _ tf hrun⟩
      · exact ⟨_, by simp, .mkdirFails nm e e2 hne⟩

/-- The two ways `attach` ends, with the calls it issues. -/
theorem attach_cases {σ : Type} (sys : System σ) (opts : AttachOptions) (w : World σ) :
    (∃ e, (attach sys opts w).1.2 = some (Errorf "Rook: Mount volume failed: %v" [e.Error])
        ∧ (attach sys opts w).2.trace = w.trace ++
          [Event.Log (Sprintf "calling agent to attach volume %s/%s" [opts.Pool, opts.Image]) false,
            Event.Attach opts (sys.Attach (sys.Log w.host
              (Sprintf "calling agent to attach volume %s/%s" [opts.Pool, opts.Image]) false)
              opts).1.2 (some e),
            Event.Log (Sprintf "Attach volume %s/%s failed: %v"
              [opts.Pool, opts.Image, e.Error]) true])
    ∨ ((attach sys opts w).1.2 = none
        ∧ (attach sys opts w).2.trace = w.trace ++
          [Event.Log (Sprintf "calling agent to attach volume %s/%s" [opts.Pool, opts.Image]) false,
            Event.Attach opts (attach sys opts w).1.1 none]) := by
  unfold attach
  simp only [callAttach, log]
  rcases ha : sys.Attach (sys.Log w.host
      (Sprintf "calling agent to attach volume %s/%s" [opts.Pool, opts.Image]) false) opts
    with ⟨⟨_ | e, dp⟩, s1⟩
  · right; simp
  · left; exact ⟨e, by simp⟩

/-- Every execution of `handleMountFrom` appends the calls of one of its paths. -/
theorem handleMountFrom_run {σ : Type} (sys : System σ) (opts : AttachOptions) (w : World σ) :
    ∃ t, (handleMountFrom sys opts w).2.trace = w.trace ++ t
      ∧ PipelineRun opts (handleMountFrom sys opts w).1 t := by
  unfold handleMountFrom
  simp only []
  rcases attach_cases sys opts w with ⟨e, hres, htr⟩ | ⟨hres, htr⟩
  · rw [hres]
    exact ⟨_, htr, .attachFails _ e⟩
  · rw [hres]
    simp only [callGetGlobalMountPath, log]
    generalize attach sys opts w = a at htr ⊢
    rcases a with ⟨⟨dp, ae⟩, w1⟩
    simp only [] at htr ⊢
    rcases hg : sys.GetGlobalMountPath w1.host opts.VolumeName with ⟨⟨_ | e, g⟩, s2⟩
    · simp only []
      generalize hw2 : (⟨s2, w1.trace ++ [Event.GetGlobalMountPath opts.VolumeName g none]⟩ :
        World σ) = w2
      obtain ⟨td, htd, hdrun⟩ := mountDevice_run sys dp g opts w2
      generalize mountDevice sys dp g opts w2 = d at htd hdrun ⊢
      rcases d with ⟨_ | x, w3⟩
      · simp only [] at htd hdrun ⊢
        obtain ⟨tb, htb, hbrun⟩ := mount_run sys g opts w3
        generalize mount sys g opts w3 = b at htb hbrun ⊢
        rcases b with ⟨_ | x, w4⟩
        · simp only [] at htb hbrun ⊢
          refine ⟨_, ?_, .done dp g td tb hdrun hbrun⟩
          subst hw2
          simp [htb, htd, htr]
        · simp only [] at htb hbrun ⊢
          refine ⟨_, ?_, .mountFails dp g x td tb hdrun hbrun⟩
          subst hw2
          simp [htb, htd, htr]
      · simp only [] at htd hdrun ⊢
        refine ⟨_, ?_, .mountDeviceFails dp g x td hdrun⟩
        subst hw2
        simp [htd, htr]
    · refine ⟨_, ?_, .pathFails dp g e⟩
      simp [htr]

/-- Every execution of `handleMount` follows one of its paths. -/
theorem handleMount_run {σ : Type} (sys : System σ) (args : List String) (s : σ) :
    HandleMountRun args (handleMount sys args ⟨s, []⟩).1 (handleMount sys args ⟨s, []⟩).2.trace := by
  unfold handleMount
  simp only []
  rcases hc : sys.getRPCClient s with ⟨_ | e, s0⟩
  · simp only []
    match args with
    | [] => exact .tooFewArgs (by simp)
    | [_] => exact .tooFewArgs (by simp)
    | args0 :: args1 :: rest =>
      simp only []
      cases hj : sys.jsonUnmarshal args1 with
      | error e => exact .badOptions args0 args1 rest e rfl
      | ok parsed =>
        simp only [callGetAttachInfoFromMountDir, log]
        rcases hi : sys.GetAttachInfoFromMountDir s0 args0
          { parsed with MountDir := args0 }
          with ⟨⟨_ | e, opts⟩, s1⟩
        · simp only []
          obtain ⟨tp, htp, hrun⟩ := handleMountFrom_run sys opts
            ⟨s1, [] ++ [Event.GetAttachInfoFromMountDir args0 none]⟩
          simp only [List.nil_append, List.singleton_append] at htp hrun ⊢
          rw [htp]
          exact .pipeline args0 opts _ tp rfl hrun
        · exact .attachInfoFails args0 opts e rfl
  · exact .noClient e

/-- The paths of `mount`, started on an empty trace. -/
theorem mount_run_fresh {σ : Type} (sys : System σ) (g : String) (opts : AttachOptions) (s : σ) :
    ∃ res t, (mount sys g opts ⟨s, []⟩).1 = res ∧ (mount sys g opts ⟨s, []⟩).2.trace = t
      ∧ MountRun g opts res t := by
  obtain ⟨t, ht, hrun⟩ := mount_run sys g opts ⟨s, []⟩
  exact ⟨_, t, rfl, by simpa using ht, hrun⟩

/-- The paths of `mountDevice`, started on an empty trace. -/
theorem mountDevice_run_fresh {σ : Type} (sys : System σ) (dp g : String)
    (opts : AttachOptions) (s : σ) :
    ∃ res t, (mountDevice sys dp g opts ⟨s, []⟩).1 = res
      ∧ (mountDevice sys dp g opts ⟨s, []⟩).2.trace = t
      ∧ MountDeviceRun dp g opts res t := by
  obtain ⟨t, ht, hrun⟩ := mountDevice_run sys dp g opts ⟨s, []⟩
  exact ⟨_, t, rfl, by simpa using ht, hrun⟩

/-! ## The text of the errors of `mount` -/

/-- A character other than `%` is copied. -/
theorem sprintfChars_plain (c : Char) (cs : List Char) (as : List String) (h : c ≠ '%') :
    sprintfChars (c :: cs) as = c :: sprintfChars cs as := by
  rw [sprintfChars]
  all_goals (intros; simp_all)

/-- The verb `%s` prints the next operand. -/
theorem sprintfChars_verb_s (cs : List Char) (a : String) (as : List String) :
    sprintfChars ('%' :: 's' :: cs) (a :: as) = a.data ++ sprintfChars cs as := by
  rw [sprintfChars]; rfl

/-- The verb `%v` prints the next operand. -/
theorem sprintfChars_verb_v (cs : List Char) (a : String) (as : List String) :
    sprintfChars ('%' :: 'v' :: cs) (a :: as) = a.data ++ sprintfChars cs as := by
  rw [sprintfChars]; rfl

/-- The text of the stale-mount error. -/
theorem staleMountError_text (opts : AttachOptions) :
    (staleMountError opts).Error = opts.MountDir
      ++ " is still mounted, despite call to unmount().  Will try again next sync loop" := by
  apply String.ext
  rfl

/-- The text of the bind-mount error. -/
theorem bindMountError_chars (g : String) (opts : AttachOptions) (e : GoError) :
    (bindMountError g opts e).Error.data = "failed to mount volume ".data
      ++ (g.data ++ (" to ".data ++ (opts.MountDir.data ++ (", error ".data ++ e.Error.data)))) := by
  have hfmt : "failed to mount volume %s to %s, error %v".data
      = ['f', 'a', 'i', 'l', 'e', 'd', ' ', 't', 'o', ' ', 'm', 'o', 'u', 'n', 't', ' ',
          'v', 'o', 'l', 'u', 'm', 'e', ' ', '%', 's', ' ', 't', 'o', ' ', '%', 's', ',', ' ',
          'e', 'r', 'r', 'o', 'r', ' ', '%', 'v'] := rfl
  simp only [bindMountError, Errorf, GoError.Error, Sprintf, String.toList, hfmt]
  simp [sprintfChars_plain, sprintfChars_verb_s, sprintfChars_verb_v]
  rfl

/-- The text of the unmount error. -/
theorem unmountError_chars (e : GoError) :
    (unmountError e).Error.data = "Failed to unmount: ".data ++ e.Error.data := by
  have hfmt : "Failed to unmount: %v".data
      = ['F', 'a', 'i', 'l', 'e', 'd', ' ', 't', 'o', ' ', 'u', 'n', 'm', 'o', 'u', 'n', 't',
          ':', ' ', '%', 'v'] := rfl
  simp only [unmountError, Errorf, GoError.Error, Sprintf, String.toList, hfmt]
  simp [sprintfChars_plain, sprintfChars_verb_s, sprintfChars_verb_v]
  rfl

/-- The stale-mount text is never a bind-mount error text: the latter has one more `f`. -/
theorem staleMountError_text_ne_bind (g : String) (opts : AttachOptions) (e : GoError) :
    (staleMountError opts).Error ≠ (bindMountError g opts e).Error := by
  intro h
  have hc := congrArg (fun t : String => t.data.count 'f') h
  simp only [] at hc
  rw [bindMountError_chars, staleMountError_text] at hc
  simp only [String.data_append, List.count_append] at hc
  have h1 : (" is still mounted, despite call to unmount().  Will try again next sync loop" :
      String).data.count 'f' = 0 := by decide
  have h2 : ("failed to mount volume " : String).data.count 'f' = 1 := by decide
  simp only [h1, h2] at hc
  omega

/-- The stale-mount text of an absolute mount directory starts with `/`, an
unmount error text with `F`. -/
theorem staleMountError_text_ne_unmount (opts : AttachOptions) (e : GoError)
    (habs : opts.MountDir.data.head? = some '/') :
    (staleMountError opts).Error ≠ (unmountError e).Error := by
  intro h
  have hc := congrArg (fun t : String => t.data.head?) h
  simp only [] at hc
  rw [unmountError_chars, staleMountError_text] at hc
  have hF : "Failed to unmount: ".data = 'F' :: "ailed to unmount: ".data := rfl
  rw [String.data_append, hF] at hc
  cases hd : opts.MountDir.data with
  | nil => simp [hd] at habs
  | cons c cs =>
    rw [hd] at hc habs
    simp at habs hc
    rw [habs] at hc
    exact absurd hc (by decide)

/-! ## The Pod Binder (`mount`) -/

/-- C10. For every request and host, the first host call of `mount` is
`Mount(globalVolumeMountPath, opts.MountDir, "", [opts.RW, "bind"])`, no probe
coming before it; and when that call returns no error, `mount` returns nil and
has issued no other host call (no probe, `Unmount` or removal). -/
theorem mount_binds_first {σ : Type} (sys : System σ) (g : String) (opts : AttachOptions)
    (s : σ) :
    ∃ err rest, hostOps (mount sys g opts ⟨s, []⟩).2.trace
        = Event.Mount g opts.MountDir "" [opts.RW, "bind"] err :: rest
      ∧ (err = none → (mount sys g opts ⟨s, []⟩).1 = none ∧ rest = []) := by
  obtain ⟨res, t, h1, h2, hrun⟩ := mount_run_fresh sys g opts s
  rw [h1, h2]
  cases hrun with
  | bound out => exact ⟨none, [], by simp [hostOps, Event.isHostOp], fun _ => ⟨rfl, rfl⟩⟩
  | bindFails err x tb out hb =>
    exact ⟨some err, hostOps (tb ++ [Event.Log out false, Event.Log (mountFailedMsg opts x) true]),
      by simp [hostOps, Event.isHostOp], fun h => by simp at h⟩

/-- C4 (as amended). For every request and host, if the bind `Mount` call fails
with `e` and the probe of the pod mount directory that follows returns
`(true, nil)`, then `mount` returns the bind-mount error carrying `e`, issues no
`Unmount` and no second probe, and issues one removal of the pod mount
directory: its host calls are exactly `Mount`, the probe and `Remove`. -/
theorem mount_not_mounted_removes {σ : Type} (sys : System σ) (g : String)
    (opts : AttachOptions) (s : σ) (e : GoError)
    (h : ∃ rest, hostOps (mount sys g opts ⟨s, []⟩).2.trace
      = Event.Mount g opts.MountDir "" [opts.RW, "bind"] (some e)
        :: Event.IsLikelyNotMountPoint opts.MountDir true none :: rest) :
    (mount sys g opts ⟨s, []⟩).1 = some (bindMountError g opts e)
      ∧ ∃ re, hostOps (mount sys g opts ⟨s, []⟩).2.trace
        = [Event.Mount g opts.MountDir "" [opts.RW, "bind"] (some e),
            Event.IsLikelyNotMountPoint opts.MountDir true none,
            Event.Remove opts.MountDir re] := by
  obtain ⟨res, t, h1, h2, hrun⟩ := mount_run_fresh sys g opts s
  obtain ⟨rest, h⟩ := h
  rw [h2] at h
  rw [h1, h2]
  cases hrun with
  | bound out => simp [hostOps, Event.isHostOp] at h
  | bindFails err x tb out hb =>
    cases hb with
    | probeFails nm e1 => simp [hostOps, Event.isHostOp] at h
    | notMounted re =>
      simp [hostOps, Event.isHostOp] at h
      obtain ⟨rfl, rfl⟩ := h
      simp [hostOps, Event.isHostOp]
    | unmountFails e2 => simp [hostOps, Event.isHostOp] at h
    | reprobeFails nm e3 => simp [hostOps, Event.isHostOp] at h
    | stillMounted => simp [hostOps, Event.isHostOp] at h
    | unmounted re => simp [hostOps, Event.isHostOp] at h

/-- C6. For every request and host, if the bind `Mount` call fails with `e`, the
probe of the pod mount directory reports a mount point, `Unmount` succeeds and
the second probe reports no mount point, then the host calls of `mount` are
exactly `Mount`, probe, `Unmount`, probe, `Remove(opts.MountDir)` in that order,
and `mount` returns the bind-mount error carrying `e`, which is neither an
unmount error nor a probe error. -/
theorem mount_stale_cleaned {σ : Type} (sys : System σ) (g : String)
    (opts : AttachOptions) (s : σ) (e : GoError)
    (h : ∃ rest, hostOps (mount sys g opts ⟨s, []⟩).2.trace
      = Event.Mount g opts.MountDir "" [opts.RW, "bind"] (some e)
        :: Event.IsLikelyNotMountPoint opts.MountDir false none
        :: Event.Unmount opts.MountDir none
        :: Event.IsLikelyNotMountPoint opts.MountDir true none :: rest) :
    (∃ re, hostOps (mount sys g opts ⟨s, []⟩).2.trace
        = [Event.Mount g opts.MountDir "" [opts.RW, "bind"] (some e),
            Event.IsLikelyNotMountPoint opts.MountDir false none,
            Event.Unmount opts.MountDir none,
            Event.IsLikelyNotMountPoint opts.MountDir true none,
            Event.Remove opts.MountDir re])
      ∧ (mount sys g opts ⟨s, []⟩).1
        = some (Errorf "failed to mount volume %s to %s, error %v"
            [g, opts.MountDir, e.Error])
      ∧ (∀ e2, (mount sys g opts ⟨s, []⟩).1 ≠ some (unmountError e2))
      ∧ (∀ e3, (mount sys g opts ⟨s, []⟩).1 ≠ some (probeError e3)) := by
  obtain ⟨res, t, h1, h2, hrun⟩ := mount_run_fresh sys g opts s
  obtain ⟨rest, h⟩ := h
  rw [h2] at h
  rw [h1, h2]
  cases hrun with
  | bound out => simp [hostOps, Event.isHostOp] at h
  | bindFails err x tb out hb =>
    cases hb with
    | probeFails nm e1 => simp [hostOps, Event.isHostOp] at h
    | notMounted re => simp [hostOps, Event.isHostOp] at h
    | unmountFails e2 => simp [hostOps, Event.isHostOp] at h
    | reprobeFails nm e3 => simp [hostOps, Event.isHostOp] at h
    | stillMounted => simp [hostOps, Event.isHostOp] at h
    | unmounted re =>
      simp [hostOps, Event.isHostOp] at h
      obtain ⟨rfl, rfl⟩ := h
      simp [hostOps, Event.isHostOp, bindMountError, unmountError, probeError, Errorf]

/-- C7. For every request and host, if the bind `Mount` call fails, the probe of
the pod mount directory reports a mount point, `Unmount` returns success and the
second probe still reports a mount point, then `mount` returns the stale-mount
error, whose text names the directory as still mounted and to be tried again;
that error is not the one built for an `Unmount` failure nor the one built for
the bind failure (its text differs from that of every bind failure, and from
that of every `Unmount` failure when the mount directory is an absolute path),
and the pod mount directory is not removed: the host calls are exactly `Mount`,
probe, `Unmount`, probe. -/
theorem mount_still_mounted {σ : Type} (sys : System σ) (g : String)
    (opts : AttachOptions) (s : σ) (e : GoError)
    (h : ∃ rest, hostOps (mount sys g opts ⟨s, []⟩).2.trace
      = Event.Mount g opts.MountDir "" [opts.RW, "bind"] (some e)
        :: Event.IsLikelyNotMountPoint opts.MountDir false none
        :: Event.Unmount opts.MountDir none
        :: Event.IsLikelyNotMountPoint opts.MountDir false none :: rest) :
    (mount sys g opts ⟨s, []⟩).1
        = some (Errorf
            "%s is still mounted, despite call to unmount().  Will try again next sync loop"
            [opts.MountDir])
      ∧ (staleMountError opts).Error = opts.MountDir
          ++ " is still mounted, despite call to unmount().  Will try again next sync loop"
      ∧ (∀ e2, (mount sys g opts ⟨s, []⟩).1 ≠ some (unmountError e2))
      ∧ (∀ e1, (mount sys g opts ⟨s, []⟩).1 ≠ some (bindMountError g opts e1))
      ∧ (∀ e1, (staleMountError opts).Error ≠ (bindMountError g opts e1).Error)
      ∧ (opts.MountDir.data.head? = some '/' →
          ∀ e2, (staleMountError opts).Error ≠ (unmountError e2).Error)
      ∧ hostOps (mount sys g opts ⟨s, []⟩).2.trace
        = [Event.Mount g opts.MountDir "" [opts.RW, "bind"] (some e),
            Event.IsLikelyNotMountPoint opts.MountDir false none,
            Event.Unmount opts.MountDir none,
            Event.IsLikelyNotMountPoint opts.MountDir false none]
      ∧ ∀ ev ∈ (mount sys g opts ⟨s, []⟩).2.trace, ev.isRemove = false := by
  obtain ⟨res, t, h1, h2, hrun⟩ := mount_run_fresh sys g opts s
  obtain ⟨rest, h⟩ := h
  rw [h2] at h
  rw [h1, h2]
  cases hrun with
  | bound out => simp [hostOps, Event.isHostOp] at h
  | bindFails err x tb out hb =>
    cases hb with
    | probeFails nm e1 => simp [hostOps, Event.isHostOp] at h
    | notMounted re => simp [hostOps, Event.isHostOp] at h
    | unmountFails e2 => simp [hostOps, Event.isHostOp] at h
    | reprobeFails nm e3 => simp [hostOps, Event.isHostOp] at h
    | stillMounted =>
      simp [hostOps, Event.isHostOp] at h
      obtain ⟨rfl, rfl⟩ := h
      refine ⟨rfl, staleMountError_text opts, ?_, ?_,
        fun e1 => staleMountError_text_ne_bind g opts e1,
        fun habs e2 => staleMountError_text_ne_unmount opts e2 habs, ?_, ?_⟩
      · simp [unmountError, staleMountError, Errorf]
      · simp [bindMountError, staleMountError, Errorf]
      · simp [hostOps, Event.isHostOp]
      · simp [Event.isRemove]
    | unmounted re => simp [hostOps, Event.isHostOp] at h

/-- C4 (counterexample). On a host where the bind `Mount` fails and the pod
mount directory is then probed as not a mount point, `mount` does act further:
it removes the pod mount directory. -/
theorem mount_not_mounted_still_removes :
    hostOps (mount (tableSystem bindBroken) sampleGlobalPath sampleOptions
        ⟨freshPodDir, []⟩).2.trace
      = [Event.Mount sampleGlobalPath sampleOptions.MountDir "" ["rw", "bind"]
            (some exitStatus32),
          Event.IsLikelyNotMountPoint sampleOptions.MountDir true none,
          Event.Remove sampleOptions.MountDir none] := by
  decide

/-- Witness of C4 as amended, on the host of the counterexample. -/
theorem mount_not_mounted_removes_witness :
    (mount (tableSystem bindBroken) sampleGlobalPath sampleOptions ⟨freshPodDir, []⟩).1
      = some (bindMountError sampleGlobalPath sampleOptions exitStatus32) :=
  (mount_not_mounted_removes (tableSystem bindBroken) sampleGlobalPath sampleOptions
    freshPodDir exitStatus32 ⟨[Event.Remove sampleOptions.MountDir none], by decide⟩).1

/-- Witness of C6: a stale pod mount directory that `Unmount` clears. -/
theorem mount_stale_cleaned_witness :
    (mount (tableSystem bindBroken) sampleGlobalPath sampleOptions ⟨stalePodDir, []⟩).1
      = some (Errorf "failed to mount volume %s to %s, error %v"
          [sampleGlobalPath, sampleOptions.MountDir, exitStatus32.Error]) :=
  (mount_stale_cleaned (tableSystem bindBroken) sampleGlobalPath sampleOptions
    stalePodDir exitStatus32 ⟨[Event.Remove sampleOptions.MountDir none], by decide⟩).2.1

/-- Witness of C7: a stale pod mount directory that stays mounted after `Unmount`. -/
theorem mount_still_mounted_witness :
    (mount (tableSystem bindBrokenUnmountSticks) sampleGlobalPath sampleOptions
        ⟨stalePodDir, []⟩).1
      = some (Errorf
          "%s is still mounted, despite call to unmount().  Will try again next sync loop"
          [sampleOptions.MountDir]) :=
  (mount_still_mounted (tableSystem bindBrokenUnmountSticks) sampleGlobalPath sampleOptions
    stalePodDir exitStatus32 ⟨[], by decide⟩).1

/-! ## The Global Mounter (`mountDevice`) -/

/-- The error `mountDevice` returns does not depend on what `os.Remove` does. -/
theorem mountDevice_result_ignores_remove {σ : Type} (sys : System σ)
    (remove : σ → String → Option GoError × σ) (dp g : String) (opts : AttachOptions)
    (w : World σ) :
    (mountDevice { sys with Remove := remove } dp g opts w).1 = (mountDevice sys dp g opts w).1 := by
  simp only [mountDevice, mountDeviceFrom, redirectStdout, formatAndMountFn,
    callIsLikelyNotMountPoint, callMkdirAll, callFormatAndMount, callRemove, log]
  rcases hp : sys.IsLikelyNotMountPoint w.host g with ⟨⟨nm, _ | e⟩, s1⟩
  · cases nm
    · simp
    · simp only [if_true]
      rcases hf : sys.FormatAndMount s1 dp g opts.FsType [opts.RW] with ⟨_ | err, s2⟩ <;> simp
  · simp only []
    cases hne : IsNotExist e
    · simp
    · simp only [if_true]
      rcases hm : sys.MkdirAll s1 g 0o750 with ⟨_ | e2, s2⟩
      · simp only []
        rcases hf : sys.FormatAndMount s2 dp g opts.FsType [opts.RW] with ⟨_ | err, s3⟩ <;> simp
      · simp

/-- C2. For every device path, global mount path, options and host, if the
probe `IsLikelyNotMountPoint(globalVolumeMountPath)` returns `(false, nil)`,
then `mountDevice` returns nil and the probe is the only call it issues: no
`FormatAndMount`, no directory creation and no directory removal. -/
theorem mountDevice_already_mounted {σ : Type} (sys : System σ) (dp g : String)
    (opts : AttachOptions) (s : σ)
    (h : Event.IsLikelyNotMountPoint g false none ∈ (mountDevice sys dp g opts ⟨s, []⟩).2.trace) :
    (mountDevice sys dp g opts ⟨s, []⟩).1 = none
      ∧ (mountDevice sys dp g opts ⟨s, []⟩).2.trace = [Event.IsLikelyNotMountPoint g false none]
      ∧ ∀ ev ∈ (mountDevice sys dp g opts ⟨s, []⟩).2.trace,
          ev.isFormatAndMount = false ∧ ev.isMkdirAll = false ∧ ev.isRemove = false := by
  obtain ⟨res, t, h1, h2, hrun⟩ := mountDevice_run_fresh sys dp g opts s
  rw [h2] at h
  rw [h1, h2]
  cases hrun with
  | probeFails nm e hne => simp at h
  | mkdirFails nm e e2 hne => simp at h
  | created nm e hne res tf hf => cases hf <;> simp at h
  | alreadyMounted => simp [Event.isFormatAndMount, Event.isMkdirAll, Event.isRemove]
  | present res tf hf => cases hf <;> simp at h

/-- C5 (as amended). For every device, path, options and host: whatever the
error `FormatAndMount` fails with (the exit status 32 of `mount` included, no
code being matched), `mountDevice` then logs the failure with `isError = true`,
removes the global mount directory and returns the error; and when
`FormatAndMount` returns no error, `mountDevice` logs the note about exit status
32 with `isError = false` and returns nil. -/
theorem mountDevice_format_outcome {σ : Type} (sys : System σ) (dp g : String)
    (opts : AttachOptions) (s : σ) :
    (∀ e, Event.FormatAndMount dp g opts.FsType [opts.RW] (some e)
          ∈ (mountDevice sys dp g opts ⟨s, []⟩).2.trace →
        (mountDevice sys dp g opts ⟨s, []⟩).1 = some (formatMountError dp g opts e)
        ∧ ∃ before out re, (mountDevice sys dp g opts ⟨s, []⟩).2.trace = before ++
            [Event.FormatAndMount dp g opts.FsType [opts.RW] (some e),
              Event.Log out false,
              Event.Log (mountFailedMsg opts (formatMountError dp g opts e)) true,
              Event.Remove g re])
      ∧ (Event.FormatAndMount dp g opts.FsType [opts.RW] none
          ∈ (mountDevice sys dp g opts ⟨s, []⟩).2.trace →
        (mountDevice sys dp g opts ⟨s, []⟩).1 = none
        ∧ ∃ before out, (mountDevice sys dp g opts ⟨s, []⟩).2.trace = before ++
            [Event.FormatAndMount dp g opts.FsType [opts.RW] none,
              Event.Log out false,
              Event.Log ignoreExit32Note false,
              Event.Log (Sprintf
                "formatting volume %v devicePath %v deviceMountPath %v fs %v with options %+v"
                [opts.VolumeName, dp, g, opts.FsType, showStrings [opts.RW]]) false]) := by
  obtain ⟨res, t, h1, h2, hrun⟩ := mountDevice_run_fresh sys dp g opts s
  rw [h1, h2]
  refine ⟨fun e h => ?_, fun h => ?_⟩
  · cases hrun with
    | probeFails nm e hne => simp at h
    | mkdirFails nm e e2 hne => simp at h
    | alreadyMounted => simp at h
    | created nm e0 hne res tf hf =>
      cases hf with
      | formatted out => simp at h
      | formatFails err out re =>
        simp at h
        subst h
        exact ⟨rfl, [Event.IsLikelyNotMountPoint g nm (some e0), Event.MkdirAll g 0o750 none],
          out, re, by simp⟩
    | present res tf hf =>
      cases hf with
      | formatted out => simp at h
      | formatFails err out re =>
        simp at h
        subst h
        exact ⟨rfl, [Event.IsLikelyNotMountPoint g true none], out, re, by simp⟩
  · cases hrun with
    | probeFails nm e hne => simp at h
    | mkdirFails nm e e2 hne => simp at h
    | alreadyMounted => simp at h
    | created nm e0 hne res tf hf =>
      cases hf with
      | formatFails err out re => simp at h
      | formatted out =>
        exact ⟨rfl, [Event.IsLikelyNotMountPoint g nm (some e0), Event.MkdirAll g 0o750 none],
          out, by simp⟩
    | present res tf hf =>
      cases hf with
      | formatFails err out re => simp at h
      | formatted out => exact ⟨rfl, [Event.IsLikelyNotMountPoint g true none], out, by simp⟩

/-- Witness of C5 as amended: on a host without fault `FormatAndMount` succeeds
and `mountDevice` returns nil; with the exit status 32 fault it returns the
error built from it. -/
theorem mountDevice_format_outcome_witness :
    (mountDevice (tableSystem Faults.none) "/dev/rbd0" sampleGlobalPath sampleOptions
        ⟨emptyHost, []⟩).1 = none
    ∧ (mountDevice (tableSystem formatExit32) "/dev/rbd0" sampleGlobalPath sampleOptions
        ⟨emptyHost, []⟩).1
      = some (formatMountError "/dev/rbd0" sampleGlobalPath sampleOptions exitStatus32) :=
  ⟨((mountDevice_format_outcome (tableSystem Faults.none) "/dev/rbd0" sampleGlobalPath
      sampleOptions emptyHost).2 (by decide)).1,
    ((mountDevice_format_outcome (tableSystem formatExit32) "/dev/rbd0" sampleGlobalPath
      sampleOptions emptyHost).1 exitStatus32 (by decide)).1⟩

/-- C5 (counterexample). When `FormatAndMount` fails with exit status 32,
`mountDevice` does return an error, logs with `isError = true` and removes the
global mount directory. -/
theorem mountDevice_exit32_is_fatal :
    (mountDevice (tableSystem formatExit32) "/dev/rbd0" sampleGlobalPath sampleOptions
        ⟨globalDirPresent, []⟩).1
      = some (formatMountError "/dev/rbd0" sampleGlobalPath sampleOptions exitStatus32)
    ∧ (mountDevice (tableSystem formatExit32) "/dev/rbd0" sampleGlobalPath sampleOptions
        ⟨globalDirPresent, []⟩).2.trace
      = [Event.IsLikelyNotMountPoint sampleGlobalPath true none,
          Event.FormatAndMount "/dev/rbd0" sampleGlobalPath "ext4" ["rw"] (some exitStatus32),
          Event.Log "" false,
          Event.Log (mountFailedMsg sampleOptions
            (formatMountError "/dev/rbd0" sampleGlobalPath sampleOptions exitStatus32)) true,
          Event.Remove sampleGlobalPath none] := by
  decide

/-- C8. For every host and every `FormatAndMount` failure `e` in `mountDevice`,
whether the global mount directory was created by this call or was already
there, `mountDevice` returns the error built from `e` and issues exactly one
removal, that of the global mount directory; and the error returned is the same
whatever `os.Remove` does. -/
theorem mountDevice_format_failure {σ : Type} (sys : System σ) (dp g : String)
    (opts : AttachOptions) (s : σ) (source target fstype : String) (options : List String)
    (e : GoError)
    (h : Event.FormatAndMount source target fstype options (some e)
      ∈ (mountDevice sys dp g opts ⟨s, []⟩).2.trace) :
    (mountDevice sys dp g opts ⟨s, []⟩).1
        = some (Errorf "failed to mount volume %s [%s] to %s, error %v"
            [dp, opts.FsType, g, e.Error])
      ∧ (∃ re, (mountDevice sys dp g opts ⟨s, []⟩).2.trace.filter Event.isRemove
          = [Event.Remove g re])
      ∧ ∀ remove : σ → String → Option GoError × σ,
          (mountDevice { sys with Remove := remove } dp g opts ⟨s, []⟩).1
            = some (Errorf "failed to mount volume %s [%s] to %s, error %v"
                [dp, opts.FsType, g, e.Error]) := by
  have key : (mountDevice sys dp g opts ⟨s, []⟩).1
        = some (Errorf "failed to mount volume %s [%s] to %s, error %v"
            [dp, opts.FsType, g, e.Error])
      ∧ (∃ re, (mountDevice sys dp g opts ⟨s, []⟩).2.trace.filter Event.isRemove
          = [Event.Remove g re]) := by
    obtain ⟨res, t, h1, h2, hrun⟩ := mountDevice_run_fresh sys dp g opts s
    rw [h2] at h
    rw [h1, h2]
    cases hrun with
    | probeFails nm e hne => simp at h
    | mkdirFails nm e e2 hne => simp at h
    | alreadyMounted => simp at h
    | created nm e0 hne res tf hf =>
      cases hf with
      | formatted out => simp at h
      | formatFails err out re =>
        simp at h
        obtain ⟨-, -, -, -, rfl⟩ := h
        exact ⟨rfl, re, by simp [Event.isRemove]⟩
    | present res tf hf =>
      cases hf with
      | formatted out => simp at h
      | formatFails err out re =>
        simp at h
        obtain ⟨-, -, -, -, rfl⟩ := h
        exact ⟨rfl, re, by simp [Event.isRemove]⟩
  exact ⟨key.1, key.2, fun remove => by
    rw [mountDevice_result_ignores_remove]; exact key.1⟩

/-- Witness of C2: the global mount path is already a mount point. -/
theorem mountDevice_already_mounted_witness :
    (mountDevice (tableSystem Faults.none) "/dev/rbd0" sampleGlobalPath sampleOptions
        ⟨globallyMounted, []⟩).2.trace
      = [Event.IsLikelyNotMountPoint sampleGlobalPath false none] :=
  (mountDevice_already_mounted (tableSystem Faults.none) "/dev/rbd0" sampleGlobalPath
    sampleOptions globallyMounted (by decide)).2.1

/-- Witness of C8: `FormatAndMount` fails on a directory this call has created. -/
theorem mountDevice_format_failure_witness :
    ∃ re, (mountDevice (tableSystem formatExit32) "/dev/rbd0" sampleGlobalPath sampleOptions
        ⟨emptyHost, []⟩).2.trace.filter Event.isRemove = [Event.Remove sampleGlobalPath re] :=
  (mountDevice_format_failure (tableSystem formatExit32) "/dev/rbd0" sampleGlobalPath
    sampleOptions emptyHost "/dev/rbd0" sampleGlobalPath "ext4" ["rw"] exitStatus32
    (by decide)).2.1

/-! ## The orchestrator (`handleMount`) -/

/-- The calls of the format step are Global Mounter calls, and show a failure
exactly when an error is returned. -/
theorem formatRun_stage {dp g : String} {opts : AttachOptions} {res : Option GoError}
    {t : List Event} (h : FormatRun dp g opts res t) :
    (∀ ev ∈ t, ev.inStage 4 = true) ∧ stageFailed 4 t = res.isSome := by
  cases h <;> simp [Event.inStage, stageFailed, Event.failsStage]

/-- The calls of `mountDevice` are Global Mounter calls, at least one of them is
not a log, and they show a failure exactly when an error is returned. -/
theorem mountDeviceRun_stage {dp g : String} {opts : AttachOptions} {res : Option GoError}
    {t : List Event} (h : MountDeviceRun dp g opts res t) :
    (∀ ev ∈ t, ev.inStage 4 = true) ∧ stageFailed 4 t = res.isSome ∧ stageCalled t = true := by
  cases h with
  | probeFails nm e hne => simp [Event.inStage, stageFailed, Event.failsStage, stageCalled,
      Event.isLog, hne]
  | mkdirFails nm e e2 hne => simp [Event.inStage, stageFailed, Event.failsStage, stageCalled,
      Event.isLog, hne]
  | alreadyMounted => simp [Event.inStage, stageFailed, Event.failsStage, stageCalled,
      Event.isLog]
  | created nm e hne res tf hf =>
    have hs := formatRun_stage hf
    simp only [stageFailed] at hs
    simp [Event.inStage, stageFailed, Event.failsStage, stageCalled, Event.isLog, hne, hs.2]
    exact hs.1
  | present res tf hf =>
    have hs := formatRun_stage hf
    simp only [stageFailed] at hs
    simp [Event.inStage, stageFailed, Event.failsStage, stageCalled, Event.isLog, hs.2]
    exact hs.1

/-- The calls of `bindFailed` are Pod Binder calls, none of them a log. -/
theorem bindFailedRun_stage {g : String} {opts : AttachOptions} {err : GoError}
    {res : Option GoError} {t : List Event} (h : BindFailedRun g opts err res t) :
    (∀ ev ∈ t, ev.inStage 5 = true) ∧ (∀ ev ∈ t, ev.isLog = false) := by
  cases h <;> simp [Event.inStage, Event.isLog]

/-- The calls of `mount` are Pod Binder calls, at least one of them is not a log,
and they show a failure exactly when an error is returned. -/
theorem mountRun_stage {g : String} {opts : AttachOptions} {res : Option GoError}
    {t : List Event} (h : MountRun g opts res t) :
    (∀ ev ∈ t, ev.inStage 5 = true) ∧ stageFailed 5 t = res.isSome ∧ stageCalled t = true := by
  cases h with
  | bound out => simp [Event.inStage, stageFailed, Event.failsStage, stageCalled, Event.isLog]
  | bindFails err x tb out hb =>
    have hs := bindFailedRun_stage hb
    simp [Event.inStage, stageFailed, Event.failsStage, stageCalled, Event.isLog]
    intro ev hev
    rcases hev with hev | hev | hev
    · exact hs.1 ev hev
    · simp [hev, Event.inStage]
    · simp [hev, Event.inStage]

/-- The first host call of `mount` is the bind `Mount`. -/
theorem mountRun_first_call {g : String} {opts : AttachOptions} {res : Option GoError}
    {t : List Event} (h : MountRun g opts res t) :
    ∀ ev, (hostOps t).head? = some ev → ev.isMount = true := by
  cases h with
  | bound out => simp [hostOps, Event.isHostOp, Event.isMount]
  | bindFails err x tb out hb => simp [hostOps, Event.isHostOp, Event.isMount]

/-- The paths of `handleMount`, started on an empty trace. -/
theorem handleMount_run_fresh {σ : Type} (sys : System σ) (args : List String) (s : σ) :
    ∃ out t, (handleMount sys args ⟨s, []⟩).1 = out ∧ (handleMount sys args ⟨s, []⟩).2.trace = t
      ∧ HandleMountRun args out t :=
  ⟨_, _, rfl, rfl, handleMount_run sys args s⟩

/-- After a failed `Attach` call, `handleMount` returns an error and has issued
no `GetGlobalMountPath` call and no host call. -/
theorem handleMount_attach_failure {σ : Type} (sys : System σ) (args : List String) (s : σ)
    (o : AttachOptions) (dp : String) (e : GoError)
    (h : Event.Attach o dp (some e) ∈ (handleMount sys args ⟨s, []⟩).2.trace) :
    (∃ x, (handleMount sys args ⟨s, []⟩).1 = .returned (some x))
      ∧ ∀ ev ∈ (handleMount sys args ⟨s, []⟩).2.trace,
          ev.isGetGlobalMountPath = false ∧ ev.isHostOp = false := by
  obtain ⟨out, t, h1, h2, hrun⟩ := handleMount_run_fresh sys args s
  rw [h2] at h
  rw [h1, h2]
  cases hrun with
  | noClient e0 => simp at h
  | tooFewArgs hlen => simp at h
  | badOptions args0 args1 rest e0 hargs => simp at h
  | attachInfoFails args0 opts e0 hargs => simp at h
  | pipeline args0 opts res tp hargs hp =>
    cases hp with
    | attachFails dp0 e0 =>
      simp [Event.isGetGlobalMountPath, Event.isHostOp]
    | pathFails dp0 g e0 => simp at h
    | mountDeviceFails dp0 g x td hd =>
      simp at h
      have := (mountDeviceRun_stage hd).1 _ h
      simp [Event.inStage] at this
    | mountFails dp0 g x td tb hd hb =>
      simp at h
      rcases h with h | h
      · have := (mountDeviceRun_stage hd).1 _ h
        simp [Event.inStage] at this
      · have := (mountRun_stage hb).1 _ h
        simp [Event.inStage] at this
    | done dp0 g td tb hd hb =>
      simp at h
      rcases h with h | h
      · have := (mountDeviceRun_stage hd).1 _ h
        simp [Event.inStage] at this
      · have := (mountRun_stage hb).1 _ h
        simp [Event.inStage] at this

/-- When the first host call of `handleMount`, the probe of the Global Mounter,
fails otherwise than with `path does not exist`, it is the only host call and
`handleMount` returns an error. -/
theorem handleMount_global_probe_failure {σ : Type} (sys : System σ) (args : List String)
    (s : σ) (file : String) (nm : Bool) (e : GoError) (rest : List Event)
    (h : hostOps (handleMount sys args ⟨s, []⟩).2.trace
      = Event.IsLikelyNotMountPoint file nm (some e) :: rest)
    (hne : IsNotExist e = false) :
    rest = [] ∧ ∃ x, (handleMount sys args ⟨s, []⟩).1 = .returned (some x) := by
  obtain ⟨out, t, h1, h2, hrun⟩ := handleMount_run_fresh sys args s
  rw [h2] at h
  rw [h1]
  cases hrun with
  | noClient e0 => simp [hostOps] at h
  | tooFewArgs hlen => simp [hostOps] at h
  | badOptions args0 args1 rest0 e0 hargs => simp [hostOps] at h
  | attachInfoFails args0 opts e0 hargs => simp [hostOps, Event.isHostOp] at h
  | pipeline args0 opts res tp hargs hp =>
    cases hp with
    | attachFails dp0 e0 => simp [hostOps, Event.isHostOp] at h
    | pathFails dp0 g e0 => simp [hostOps, Event.isHostOp] at h
    | mountDeviceFails dp0 g x td hd =>
      cases hd with
      | probeFails nm0 e1 hne0 =>
        simp [hostOps, Event.isHostOp] at h
        exact ⟨h.2, _, rfl⟩
      | mkdirFails nm0 e1 e2 hne0 =>
        simp [hostOps, Event.isHostOp] at h
        obtain ⟨⟨-, -, rfl⟩, -⟩ := h
        simp [hne] at hne0
      | created nm0 e1 hne0 res0 tf hf =>
        simp [hostOps, Event.isHostOp] at h
        obtain ⟨⟨-, -, rfl⟩, -⟩ := h
        simp [hne] at hne0
      | present res0 tf hf => simp [hostOps, Event.isHostOp] at h
    | mountFails dp0 g x td tb hd hb =>
      cases hd with
      | created nm0 e1 hne0 res0 tf hf =>
        simp [hostOps, Event.isHostOp] at h
        obtain ⟨⟨-, -, rfl⟩, -⟩ := h
        simp [hne] at hne0
      | alreadyMounted => simp [hostOps, Event.isHostOp] at h
      | present res0 tf hf => simp [hostOps, Event.isHostOp] at h
    | done dp0 g td tb hd hb =>
      cases hd with
      | created nm0 e1 hne0 res0 tf hf =>
        simp [hostOps, Event.isHostOp] at h
        obtain ⟨⟨-, -, rfl⟩, -⟩ := h
        simp [hne] at hne0
      | alreadyMounted => simp [hostOps, Event.isHostOp] at h
      | present res0 tf hf => simp [hostOps, Event.isHostOp] at h

/-- A stage that issued nothing has not failed. -/
theorem stageFailed_nil (k : Nat) : stageFailed k [] = false := rfl

/-- A stage that issued nothing was not called. -/
theorem stageCalled_nil : stageCalled [] = false := rfl

/-- The calls of the first three stages when each succeeds. -/
theorem stage_heads (args0 : String) (opts : AttachOptions) (dp g : String) :
    (∀ ev ∈ [Event.GetAttachInfoFromMountDir args0 none], ev.inStage 1 = true)
      ∧ stageFailed 1 [Event.GetAttachInfoFromMountDir args0 none] = false
      ∧ stageCalled [Event.GetAttachInfoFromMountDir args0 none] = true
      ∧ (∀ ev ∈ [Event.Log (Sprintf "calling agent to attach volume %s/%s"
            [opts.Pool, opts.Image]) false, Event.Attach opts dp none], ev.inStage 2 = true)
      ∧ stageFailed 2 [Event.Log (Sprintf "calling agent to attach volume %s/%s"
            [opts.Pool, opts.Image]) false, Event.Attach opts dp none] = false
      ∧ stageCalled [Event.Log (Sprintf "calling agent to attach volume %s/%s"
            [opts.Pool, opts.Image]) false, Event.Attach opts dp none] = true
      ∧ (∀ ev ∈ [Event.GetGlobalMountPath opts.VolumeName g none], ev.inStage 3 = true)
      ∧ stageFailed 3 [Event.GetGlobalMountPath opts.VolumeName g none] = false
      ∧ stageCalled [Event.GetGlobalMountPath opts.VolumeName g none] = true := by
  simp [stageFailed, stageCalled, Event.inStage, Event.failsStage, Event.isLog]

/-- The calls of `handleMount` split by stage, nothing following a failed stage. -/
theorem handleMount_stage_split {σ : Type} (sys : System σ) (args : List String) (s : σ) :
    ∃ t1 t2 t3 t4 t5 t6 : List Event,
      (handleMount sys args ⟨s, []⟩).2.trace = t1 ++ t2 ++ t3 ++ t4 ++ t5 ++ t6
      ∧ ((∀ ev ∈ t1, ev.inStage 1 = true) ∧ (∀ ev ∈ t2, ev.inStage 2 = true)
        ∧ (∀ ev ∈ t3, ev.inStage 3 = true) ∧ (∀ ev ∈ t4, ev.inStage 4 = true)
        ∧ (∀ ev ∈ t5, ev.inStage 5 = true) ∧ (∀ ev ∈ t6, ev.isLog = true))
      ∧ (∀ ev, (hostOps t5).head? = some ev → ev.isMount = true)
      ∧ ((stageFailed 1 t1 = true → t2 ++ t3 ++ t4 ++ t5 ++ t6 = [])
        ∧ (stageFailed 2 t2 = true → t3 ++ t4 ++ t5 ++ t6 = [])
        ∧ (stageFailed 3 t3 = true → t4 ++ t5 ++ t6 = [])
        ∧ (stageFailed 4 t4 = true → t5 ++ t6 = [])
        ∧ (stageFailed 5 t5 = true → t6 = []))
      ∧ ((stageFailed 1 t1 = true ∨ stageFailed 2 t2 = true ∨ stageFailed 3 t3 = true
            ∨ stageFailed 4 t4 = true ∨ stageFailed 5 t5 = true) →
          ∃ x, (handleMount sys args ⟨s, []⟩).1 = .returned (some x))
      ∧ ((handleMount sys args ⟨s, []⟩).1 = .returned none ↔
          (stageCalled t1 = true ∧ stageFailed 1 t1 = false)
          ∧ (stageCalled t2 = true ∧ stageFailed 2 t2 = false)
          ∧ (stageCalled t3 = true ∧ stageFailed 3 t3 = false)
          ∧ (stageCalled t4 = true ∧ stageFailed 4 t4 = false)
          ∧ (stageCalled t5 = true ∧ stageFailed 5 t5 = false)) := by
  obtain ⟨out, t, h1, h2, hrun⟩ := handleMount_run_fresh sys args s
  rw [h1, h2]
  cases hrun with
  | noClient e0 =>
    exact ⟨[], [], [], [], [], [], by simp [stageFailed, stageCalled, hostOps]⟩
  | tooFewArgs hlen =>
    exact ⟨[], [], [], [], [], [], by simp [stageFailed, stageCalled, hostOps]⟩
  | badOptions args0 args1 rest e0 hargs =>
    exact ⟨[], [], [], [], [], [], by simp [stageFailed, stageCalled, hostOps]⟩
  | attachInfoFails args0 opts e0 hargs =>
    exact ⟨[Event.GetAttachInfoFromMountDir args0 (some e0),
      Event.Log (Sprintf "Attach volume %s/%s failed: %v"
        [opts.Pool, opts.Image, GoError.Error e0]) true], [], [], [], [], [], by
      simp [stageFailed, stageCalled, Event.inStage, Event.failsStage, Event.isLog, hostOps]⟩
  | pipeline args0 opts res tp hargs hp =>
    cases hp with
    | attachFails dp0 e0 =>
      refine ⟨[Event.GetAttachInfoFromMountDir args0 none],
        [Event.Log (Sprintf "calling agent to attach volume %s/%s" [opts.Pool, opts.Image])
          false, Event.Attach opts dp0 (some e0),
          Event.Log (Sprintf "Attach volume %s/%s failed: %v"
            [opts.Pool, opts.Image, GoError.Error e0]) true], [], [], [], [], ?_⟩
      simp [stageFailed, stageCalled, Event.inStage, Event.failsStage, Event.isLog, hostOps]
    | pathFails dp0 g e0 =>
      refine ⟨[Event.GetAttachInfoFromMountDir args0 none],
        [Event.Log (Sprintf "calling agent to attach volume %s/%s" [opts.Pool, opts.Image])
          false, Event.Attach opts dp0 none],
        [Event.GetGlobalMountPath opts.VolumeName g (some e0),
          Event.Log (Sprintf
            "Attach volume %s/%s failed. Cannot get global volume mount path: %v"
            [opts.Pool, opts.Image, GoError.Error e0]) true], [], [], [], ?_⟩
      simp [stageFailed, stageCalled, Event.inStage, Event.failsStage, Event.isLog, hostOps]
    | mountDeviceFails dp0 g x td hd =>
      obtain ⟨hin, hfail, hcalled⟩ := (mountDeviceRun_stage hd)
      obtain ⟨hs1, f1, c1, hs2, f2, c2, hs3, f3, c3⟩ := stage_heads args0 opts dp0 g
      simp only [Option.isSome_some] at hfail
      refine ⟨[Event.GetAttachInfoFromMountDir args0 none],
        [Event.Log (Sprintf "calling agent to attach volume %s/%s" [opts.Pool, opts.Image])
          false, Event.Attach opts dp0 none],
        [Event.GetGlobalMountPath opts.VolumeName g none], td, [], [],
        by simp, ⟨hs1, hs2, hs3, hin, by simp, by simp⟩, by simp [hostOps], ?_, ?_, ?_⟩
      · simp [f1, f2, f3, hfail, stageFailed_nil]
      · simp
      · simp [f1, f2, f3, hfail, stageFailed_nil, stageCalled_nil]
    | mountFails dp0 g x td tb hd hb =>
      obtain ⟨hin, hfail, hcalled⟩ := (mountDeviceRun_stage hd)
      obtain ⟨hin5, hfail5, hcalled5⟩ := (mountRun_stage hb)
      obtain ⟨hs1, f1, c1, hs2, f2, c2, hs3, f3, c3⟩ := stage_heads args0 opts dp0 g
      simp only [Option.isSome_some, Option.isSome_none] at hfail hfail5
      refine ⟨[Event.GetAttachInfoFromMountDir args0 none],
        [Event.Log (Sprintf "calling agent to attach volume %s/%s" [opts.Pool, opts.Image])
          false, Event.Attach opts dp0 none],
        [Event.GetGlobalMountPath opts.VolumeName g none], td, tb, [],
        by simp, ⟨hs1, hs2, hs3, hin, hin5, by simp⟩, mountRun_first_call hb, ?_, ?_, ?_⟩
      · simp [f1, f2, f3, hfail, hfail5]
      · simp
      · simp [f1, f2, f3, hfail, hfail5]
    | done dp0 g td tb hd hb =>
      obtain ⟨hin, hfail, hcalled⟩ := (mountDeviceRun_stage hd)
      obtain ⟨hin5, hfail5, hcalled5⟩ := (mountRun_stage hb)
      obtain ⟨hs1, f1, c1, hs2, f2, c2, hs3, f3, c3⟩ := stage_heads args0 opts dp0 g
      simp only [Option.isSome_some, Option.isSome_none] at hfail hfail5
      refine ⟨[Event.GetAttachInfoFromMountDir args0 none],
        [Event.Log (Sprintf "calling agent to attach volume %s/%s" [opts.Pool, opts.Image])
          false, Event.Attach opts dp0 none],
        [Event.GetGlobalMountPath opts.VolumeName g none], td, tb,
        [Event.Log (Sprintf "volume %s/%s has been attached and mounted"
            [opts.Pool, opts.Image]) false],
        by simp, ⟨hs1, hs2, hs3, hin, hin5, by simp [Event.isLog]⟩, mountRun_first_call hb,
        ?_, ?_, ?_⟩
      · simp [f1, f2, f3, hfail, hfail5]
      · simp [f1, f2, f3, hfail, hfail5]
      · simp [f1, f2, f3, hfail, hfail5, c1, c2, c3, hcalled, hcalled5]

/-- C1. For every request and every behaviour of the agent and the host:
if the `Attach` call fails, `handleMount` returns an error and issues no
`GetGlobalMountPath` call and no host call at all; if the first host call, the
probe of the Global Mounter, fails otherwise than with `path does not exist`,
it is the only host call and an error is returned; and the calls of
`handleMount` split, in order, into those of the five stages
`GetAttachInfoFromMountDir`, `Attach`, `GetGlobalMountPath`, `mountDevice`,
`mount` (and a closing log), the host calls of the Pod Binder starting with the
bind `Mount`, such that once a stage has failed no later call is issued and an
error is returned, and `handleMount` returns nil exactly when each of the five
stages has been called and none has failed. -/
theorem handleMount_stops_at_first_failure {σ : Type} (sys : System σ) (args : List String)
    (s : σ) :
    (∀ o dp e, Event.Attach o dp (some e) ∈ (handleMount sys args ⟨s, []⟩).2.trace →
        (∃ x, (handleMount sys args ⟨s, []⟩).1 = .returned (some x))
        ∧ ∀ ev ∈ (handleMount sys args ⟨s, []⟩).2.trace,
            ev.isGetGlobalMountPath = false ∧ ev.isHostOp = false)
    ∧ (∀ file nm e rest, hostOps (handleMount sys args ⟨s, []⟩).2.trace
          = Event.IsLikelyNotMountPoint file nm (some e) :: rest → IsNotExist e = false →
        rest = [] ∧ ∃ x, (handleMount sys args ⟨s, []⟩).1 = .returned (some x))
    ∧ ∃ t1 t2 t3 t4 t5 t6 : List Event,
      (handleMount sys args ⟨s, []⟩).2.trace = t1 ++ t2 ++ t3 ++ t4 ++ t5 ++ t6
      ∧ ((∀ ev ∈ t1, ev.inStage 1 = true) ∧ (∀ ev ∈ t2, ev.inStage 2 = true)
        ∧ (∀ ev ∈ t3, ev.inStage 3 = true) ∧ (∀ ev ∈ t4, ev.inStage 4 = true)
        ∧ (∀ ev ∈ t5, ev.inStage 5 = true) ∧ (∀ ev ∈ t6, ev.isLog = true))
      ∧ (∀ ev, (hostOps t5).head? = some ev → ev.isMount = true)
      ∧ ((stageFailed 1 t1 = true → t2 ++ t3 ++ t4 ++ t5 ++ t6 = [])
        ∧ (stageFailed 2 t2 = true → t3 ++ t4 ++ t5 ++ t6 = [])
        ∧ (stageFailed 3 t3 = true → t4 ++ t5 ++ t6 = [])
        ∧ (stageFailed 4 t4 = true → t5 ++ t6 = [])
        ∧ (stageFailed 5 t5 = true → t6 = []))
      ∧ ((stageFailed 1 t1 = true ∨ stageFailed 2 t2 = true ∨ stageFailed 3 t3 = true
            ∨ stageFailed 4 t4 = true ∨ stageFailed 5 t5 = true) →
          ∃ x, (handleMount sys args ⟨s, []⟩).1 = .returned (some x))
      ∧ ((handleMount sys args ⟨s, []⟩).1 = .returned none ↔
          (stageCalled t1 = true ∧ stageFailed 1 t1 = false)
          ∧ (stageCalled t2 = true ∧ stageFailed 2 t2 = false)
          ∧ (stageCalled t3 = true ∧ stageFailed 3 t3 = false)
          ∧ (stageCalled t4 = true ∧ stageFailed 4 t4 = false)
          ∧ (stageCalled t5 = true ∧ stageFailed 5 t5 = false)) :=
  ⟨fun o dp e h => handleMount_attach_failure sys args s o dp e h,
    fun file nm e rest h hne => handleMount_global_probe_failure sys args s file nm e rest h hne,
    handleMount_stage_split sys args s⟩

/-- Witness of C1, on the payload `{}`: when the agent refuses `Attach`,
`handleMount` returns an error and issues no `GetGlobalMountPath` call and no
host call; when the probe of the global mount path is denied, `handleMount`
returns an error and that probe is its only host call. -/
theorem handleMount_stops_at_first_failure_witness :
    ((∃ x, (handleMount (tableSystem attachRefused) [sampleOptions.MountDir, emptyObject]
        ⟨emptyHost, []⟩).1 = .returned (some x))
      ∧ ∀ ev ∈ (handleMount (tableSystem attachRefused) [sampleOptions.MountDir, emptyObject]
          ⟨emptyHost, []⟩).2.trace, ev.isGetGlobalMountPath = false ∧ ev.isHostOp = false)
    ∧ (hostOps (handleMount (tableSystem probeDenied) [sampleOptions.MountDir, emptyObject]
          ⟨emptyHost, []⟩).2.trace
        = [Event.IsLikelyNotMountPoint sampleGlobalPath true (some permissionDenied)]
      ∧ ∃ x, (handleMount (tableSystem probeDenied) [sampleOptions.MountDir, emptyObject]
          ⟨emptyHost, []⟩).1 = .returned (some x)) :=
  ⟨(handleMount_stops_at_first_failure (tableSystem attachRefused)
      [sampleOptions.MountDir, emptyObject] emptyHost).1
      sampleOptions "/dev/rbd0" (.external "volume not found" false) (by decide),
    by decide,
    ((handleMount_stops_at_first_failure (tableSystem probeDenied)
      [sampleOptions.MountDir, emptyObject] emptyHost).2.1
      sampleGlobalPath true permissionDenied [] (by decide) (by decide)).2⟩

/-- When `handleMount` returns an error, a `Log` call with `isError = true` has
been issued, unless no call was issued at all (no RPC client, options not
parsed) or the error is that of the probe or of the directory creation of the
Global Mounter, which is then the last call. -/
theorem handleMount_error_logging {σ : Type} (sys : System σ) (args : List String) (s : σ)
    (x : GoError) (h : (handleMount sys args ⟨s, []⟩).1 = .returned (some x)) :
    (handleMount sys args ⟨s, []⟩).2.trace.any Event.isErrorLog = true
      ∨ (handleMount sys args ⟨s, []⟩).2.trace = []
      ∨ (∃ before g nm e, IsNotExist e = false
          ∧ (handleMount sys args ⟨s, []⟩).2.trace
            = before ++ [Event.IsLikelyNotMountPoint g nm (some e)]
          ∧ x = Errorf "Rook: Mount volume failed. Error checking if %s is a mount point: %v"
              [g, e.Error])
      ∨ (∃ before g e2, (handleMount sys args ⟨s, []⟩).2.trace
            = before ++ [Event.MkdirAll g 0o750 (some e2)]
          ∧ x = Errorf "Rook: Mount volume failed. Cannot create global volume mount path dir: %v"
              [e2.Error]) := by
  obtain ⟨out, t, h1, h2, hrun⟩ := handleMount_run_fresh sys args s
  rw [h1] at h
  rw [h2]
  cases hrun with
  | noClient e0 => simp
  | tooFewArgs hlen => simp
  | badOptions args0 args1 rest e0 hargs => simp
  | attachInfoFails args0 opts e0 hargs => simp [Event.isErrorLog]
  | pipeline args0 opts res tp hargs hp =>
    cases hp with
    | attachFails dp0 e0 => simp [Event.isErrorLog]
    | pathFails dp0 g e0 => simp [Event.isErrorLog]
    | done dp0 g td tb hd hb => simp at h
    | mountFails dp0 g x0 td tb hd hb =>
      left
      cases hb with
      | bindFails err x1 tb0 out0 hb0 => simp [Event.isErrorLog]
    | mountDeviceFails dp0 g x0 td hd =>
      simp only [Outcome.returned.injEq, Option.some.injEq] at h
      subst h
      cases hd with
      | probeFails nm e hne =>
        right; right; left
        exact ⟨[Event.GetAttachInfoFromMountDir args0 none,
          Event.Log (Sprintf "calling agent to attach volume %s/%s" [opts.Pool, opts.Image])
            false, Event.Attach opts dp0 none, Event.GetGlobalMountPath opts.VolumeName g none],
          g, nm, e, hne, by simp, rfl⟩
      | mkdirFails nm e e2 hne =>
        right; right; right
        exact ⟨[Event.GetAttachInfoFromMountDir args0 none,
          Event.Log (Sprintf "calling agent to attach volume %s/%s" [opts.Pool, opts.Image])
            false, Event.Attach opts dp0 none, Event.GetGlobalMountPath opts.VolumeName g none,
          Event.IsLikelyNotMountPoint g nm (some e)], g, e2, by simp, rfl⟩
      | created nm e hne res tf hf =>
        left
        cases hf with
        | formatFails err out0 re => simp [Event.isErrorLog]
      | present res tf hf =>
        left
        cases hf with
        | formatFails err out0 re => simp [Event.isErrorLog]

/-- The simulated `json.Unmarshal` rejects the empty payload: `handleMount`
then returns the parse error before any stage, without a call. -/
theorem handleMount_rejects_empty_payload :
    (handleMount (tableSystem Faults.none) [sampleOptions.MountDir, ""] ⟨emptyHost, []⟩).1
        = .returned (some (Errorf "Rook: Could not parse options for mounting %s. Got %v"
            ["", "unexpected end of JSON input"]))
      ∧ (handleMount (tableSystem Faults.none) [sampleOptions.MountDir, ""]
          ⟨emptyHost, []⟩).2.trace = [] := by
  decide

/-- C9 (failing inputs). On the payload `{}`, which `json.Unmarshal` accepts,
and a healthy agent, the first three stages succeed and the Global Mounter is
reached: when its probe of the global mount path fails with `permission
denied`, and when its creation of the global mount directory fails,
`handleMount` returns the error of the Global Mounter and no `Log` call with
`isError = true` has been issued. -/
theorem handleMount_global_mounter_failure_unlogged :
    ((handleMount (tableSystem probeDenied) [sampleOptions.MountDir, emptyObject] ⟨emptyHost, []⟩).1
        = .returned (some (Errorf
            "Rook: Mount volume failed. Error checking if %s is a mount point: %v"
            [sampleGlobalPath, permissionDenied.Error]))
      ∧ (handleMount (tableSystem probeDenied) [sampleOptions.MountDir, emptyObject]
          ⟨emptyHost, []⟩).2.trace
        = [Event.GetAttachInfoFromMountDir sampleOptions.MountDir none,
            Event.Log (Sprintf "calling agent to attach volume %s/%s" ["p", "i"]) false,
            Event.Attach sampleOptions "/dev/rbd0" none,
            Event.GetGlobalMountPath "v" sampleGlobalPath none,
            Event.IsLikelyNotMountPoint sampleGlobalPath true (some permissionDenied)]
      ∧ (handleMount (tableSystem probeDenied) [sampleOptions.MountDir, emptyObject]
          ⟨emptyHost, []⟩).2.trace.any Event.isErrorLog = false)
    ∧ ((handleMount (tableSystem mkdirDenied) [sampleOptions.MountDir, emptyObject] ⟨emptyHost, []⟩).1
        = .returned (some (Errorf
            "Rook: Mount volume failed. Cannot create global volume mount path dir: %v"
            [permissionDenied.Error]))
      ∧ (handleMount (tableSystem mkdirDenied) [sampleOptions.MountDir, emptyObject]
          ⟨emptyHost, []⟩).2.trace
        = [Event.GetAttachInfoFromMountDir sampleOptions.MountDir none,
            Event.Log (Sprintf "calling agent to attach volume %s/%s" ["p", "i"]) false,
            Event.Attach sampleOptions "/dev/rbd0" none,
            Event.GetGlobalMountPath "v" sampleGlobalPath none,
            Event.IsLikelyNotMountPoint sampleGlobalPath true
              (some (.external "no such file or directory" true)),
            Event.MkdirAll sampleGlobalPath 0o750 (some permissionDenied)]
      ∧ (handleMount (tableSystem mkdirDenied) [sampleOptions.MountDir, emptyObject]
          ⟨emptyHost, []⟩).2.trace.any Event.isErrorLog = false) := by
  decide

/-! ## The guarantee of the Pod Binder on a host with a truthful probe -/

/-- The simulated host has a truthful probe, whatever the faults. -/
theorem tableSystem_truthful (f : Faults) : TruthfulHost (tableSystem f) Table.mounted where
  probe_truthful := by
    intro t file
    simp only [tableSystem]
    cases f.probe with
    | some e => simp
    | none =>
      by_cases hm : (t.mounted file).isSome = true
      · simp [hm]
      · by_cases hd : file ∈ t.dirs
        · simp [hm, hd]
          simpa using hm
        · simp [hm, hd]
  probe_keeps := by
    intro t file p
    simp only [tableSystem]
    cases f.probe with
    | some e => rfl
    | none =>
      by_cases hm : (t.mounted file).isSome = true
      · simp [hm]
      · by_cases hd : file ∈ t.dirs <;> simp [hm, hd]
  log_keeps := by
    intro t message isError p
    rfl
  remove_keeps := by
    intro t name p
    simp only [tableSystem]
    by_cases hm : (t.mounted name).isSome = true
    · simp [hm]
    · simp only [hm]
      simp [Table.mounted]
  mount_binds := by
    intro t source target fstype options
    simp only [tableSystem]
    cases f.bind with
    | some e => simp
    | none => simp [Table.mounted]

/-- On a host with a truthful probe, `bindFailed` returns the bind-mount error
only with the pod mount directory out of the mount table. -/
theorem bindFailed_guarantee {σ : Type} (sys : System σ) (mounted : σ → String → Option String)
    (ht : TruthfulHost sys mounted) (g : String) (opts : AttachOptions) (err : GoError)
    (w : World σ) :
    (∀ e, (bindFailed sys g opts err w).1 = some (bindMountError g opts e) →
        mounted (bindFailed sys g opts err w).2.host opts.MountDir = none)
      ∧ ((bindFailed sys g opts err w).1 = some (bindMountError g opts err)
        ∨ (∃ e, (bindFailed sys g opts err w).1 = some (probeError e))
        ∨ (∃ e, (bindFailed sys g opts err w).1 = some (unmountError e))
        ∨ (bindFailed sys g opts err w).1 = some (staleMountError opts)) := by
  unfold bindFailed
  simp only [callIsLikelyNotMountPoint, callUnmount, callRemove]
  have hp1 := ht.probe_truthful w.host opts.MountDir
  have hp2 := ht.probe_keeps w.host opts.MountDir opts.MountDir
  rcases hp : sys.IsLikelyNotMountPoint w.host opts.MountDir with ⟨⟨nm, _ | e1⟩, s1⟩
  · rw [hp] at hp1 hp2
    simp only [] at hp1 hp2
    cases nm
    · simp only [Bool.not_false, if_true]
      rcases hu : sys.Unmount s1 opts.MountDir with ⟨_ | e2, s2⟩
      · simp only []
        have hq1 := ht.probe_truthful s2 opts.MountDir
        have hq2 := ht.probe_keeps s2 opts.MountDir opts.MountDir
        rcases hq : sys.IsLikelyNotMountPoint s2 opts.MountDir with ⟨⟨nm2, _ | e3⟩, s3⟩
        · rw [hq] at hq1 hq2
          simp only [] at hq1 hq2
          cases nm2
          · simp [bindMountError, staleMountError, Errorf]
          · have hnone : mounted s2 opts.MountDir = none := by
              have := hq1 trivial
              simpa using this.symm
            simp [bindMountError, ht.remove_keeps, hq2, hnone]
        · simp [bindMountError, probeError, Errorf]
      · simp [bindMountError, unmountError, Errorf]
    · have hnone : mounted w.host opts.MountDir = none := by
        have := hp1 trivial
        simpa using this.symm
      simp [bindMountError, ht.remove_keeps, hp2, hnone]
  · simp [bindMountError, probeError, Errorf]

/-- C3 (as amended). On a host whose probe is truthful about the mount table,
where logging and directory removal leave the table alone and a successful
`Mount` puts its target in the table, for every behaviour of `Mount`, `Unmount`
and the probe otherwise: when `mount` returns nil the pod mount directory is a
mount of the global mount path; when it returns the bind-mount error the pod
mount directory is not a mount point; and it returns nil, the bind-mount error,
a probe error, an unmount error or the stale-mount error, the last three with
no guarantee on the pod mount directory. -/
theorem mount_guarantee {σ : Type} (sys : System σ) (mounted : σ → String → Option String)
    (ht : TruthfulHost sys mounted) (g : String) (opts : AttachOptions) (s : σ) :
    ((mount sys g opts ⟨s, []⟩).1 = none →
        mounted (mount sys g opts ⟨s, []⟩).2.host opts.MountDir = some g)
      ∧ (∀ e, (mount sys g opts ⟨s, []⟩).1 = some (bindMountError g opts e) →
        mounted (mount sys g opts ⟨s, []⟩).2.host opts.MountDir = none)
      ∧ ((mount sys g opts ⟨s, []⟩).1 = none
        ∨ (∃ e, (mount sys g opts ⟨s, []⟩).1 = some (bindMountError g opts e))
        ∨ (∃ e, (mount sys g opts ⟨s, []⟩).1 = some (probeError e))
        ∨ (∃ e, (mount sys g opts ⟨s, []⟩).1 = some (unmountError e))
        ∨ (mount sys g opts ⟨s, []⟩).1 = some (staleMountError opts)) := by
  unfold mount
  simp only [redirectStdout, bindMountFn, callMount, log]
  have hb := ht.mount_binds (sys.Log s
      (Sprintf "mounting global mount path %s on %s" [g, opts.MountDir]) false)
      g opts.MountDir "" [opts.RW, "bind"]
  rcases hm : sys.Mount (sys.Log s
      (Sprintf "mounting global mount path %s on %s" [g, opts.MountDir]) false)
      g opts.MountDir "" [opts.RW, "bind"] with ⟨_ | err, s1⟩
  · rw [hm] at hb
    simp [ht.log_keeps, hb]
  · simp only []
    generalize hw : (⟨s1, [] ++ [Event.Log
        (Sprintf "mounting global mount path %s on %s" [g, opts.MountDir]) false]
        ++ [Event.Mount g opts.MountDir "" [opts.RW, "bind"] (some err)]⟩ : World σ) = w1
    obtain ⟨hclean, hforms⟩ := bindFailed_guarantee sys mounted ht g opts err w1
    generalize bindFailed sys g opts err w1 = r at hclean hforms
    rcases r with ⟨_ | x, w2⟩
    · simp at hforms
    · simp only [] at hclean hforms ⊢
      refine ⟨by simp, fun e he => ?_, ?_⟩
      · simp only [ht.log_keeps]
        exact hclean e he
      · right
        rcases hforms with h | h | h | h
        · exact Or.inl ⟨err, h⟩
        · exact Or.inr (Or.inl h)
        · exact Or.inr (Or.inr (Or.inl h))
        · exact Or.inr (Or.inr (Or.inr h))

/-- C3 (counterexample). A host with a truthful probe on which the bind `Mount`
fails, the pod mount directory is a stale mount point and `Unmount` fails:
`mount` returns an error and the pod mount directory is still a mount point. -/
theorem mount_error_leaves_mount_point :
    TruthfulHost (tableSystem bindAndUnmountBroken) Table.mounted
      ∧ (mount (tableSystem bindAndUnmountBroken) sampleGlobalPath sampleOptions
          ⟨stalePodDir, []⟩).1 = some (unmountError permissionDenied)
      ∧ Table.mounted (mount (tableSystem bindAndUnmountBroken) sampleGlobalPath sampleOptions
          ⟨stalePodDir, []⟩).2.host sampleOptions.MountDir = some "/old" :=
  ⟨tableSystem_truthful _, by decide, by decide⟩

/-- Witness of C3 as amended: on the simulated host without fault, `mount`
returns nil and the pod mount directory is a mount of the global mount path. -/
theorem mount_guarantee_witness :
    TruthfulHost (tableSystem Faults.none) Table.mounted
      ∧ Table.mounted (mount (tableSystem Faults.none) sampleGlobalPath sampleOptions
          ⟨freshPodDir, []⟩).2.host sampleOptions.MountDir = some sampleGlobalPath :=
  ⟨tableSystem_truthful _,
    (mount_guarantee (tableSystem Faults.none) Table.mounted (tableSystem_truthful _)
      sampleGlobalPath sampleOptions freshPodDir).1 (by decide)⟩

/-! ## No retry inside one invocation, probe failures, missing directory -/

/-- C11. For every host behaviour, `mount` issues exactly one `Mount` call, the
bind of the global mount path on the pod mount directory, and returns nil if and
only if that call returned no error (so a stale mount that is unmounted and
removed still ends in an error, without a second bind); and `mountDevice`
issues at most one `FormatAndMount` call. -/
theorem nothing_is_retried {σ : Type} (sys : System σ) (dp g : String) (opts : AttachOptions)
    (s s' : σ) :
    (∃ err, (mount sys g opts ⟨s, []⟩).2.trace.filter Event.isMount
          = [Event.Mount g opts.MountDir "" [opts.RW, "bind"] err]
        ∧ ((mount sys g opts ⟨s, []⟩).1 = none ↔ err = none))
      ∧ ((mountDevice sys dp g opts ⟨s', []⟩).2.trace.filter Event.isFormatAndMount).length ≤ 1 := by
  constructor
  · obtain ⟨res, t, h1, h2, hrun⟩ := mount_run_fresh sys g opts s
    rw [h1, h2]
    cases hrun with
    | bound out => exact ⟨none, by simp [Event.isMount], by simp⟩
    | bindFails err x tb out hb =>
      refine ⟨some err, ?_, by simp⟩
      cases hb <;> simp [Event.isMount]
  · obtain ⟨res, t, h1, h2, hrun⟩ := mountDevice_run_fresh sys dp g opts s'
    rw [h2]
    cases hrun with
    | probeFails nm e hne => simp [Event.isFormatAndMount]
    | mkdirFails nm e e2 hne => simp [Event.isFormatAndMount]
    | alreadyMounted => simp [Event.isFormatAndMount]
    | created nm e hne res tf hf => cases hf <;> simp [Event.isFormatAndMount]
    | present res tf hf => cases hf <;> simp [Event.isFormatAndMount]

/-- C13. For every request and host: if the bind `Mount` call fails and the
probe of the pod mount directory that follows fails with `e1`, then `mount`
returns the probe error built from `e1`, which is not the bind-mount error, and
acts no further (its host calls are exactly `Mount` and that probe: no
`Unmount`, no second probe, no removal); and if the host answers the probe of
the global mount path with an error other than `path does not exist`,
`mountDevice` returns an error built from it, the probe is its only call (no
directory creation, no `FormatAndMount`, no removal) and the host is left as
the probe left it. -/
theorem probe_failure_stops {σ : Type} (sys : System σ) (dp g : String)
    (opts : AttachOptions) (s s' : σ) :
    (∀ e nm e1, (∃ rest, hostOps (mount sys g opts ⟨s, []⟩).2.trace
          = Event.Mount g opts.MountDir "" [opts.RW, "bind"] (some e)
            :: Event.IsLikelyNotMountPoint opts.MountDir nm (some e1) :: rest) →
        (mount sys g opts ⟨s, []⟩).1
            = some (Errorf "IsLikelyNotMountPoint check failed: %v" [e1.Error])
        ∧ (mount sys g opts ⟨s, []⟩).1 ≠ some (bindMountError g opts e)
        ∧ hostOps (mount sys g opts ⟨s, []⟩).2.trace
            = [Event.Mount g opts.MountDir "" [opts.RW, "bind"] (some e),
                Event.IsLikelyNotMountPoint opts.MountDir nm (some e1)])
      ∧ (∀ nm e, Event.IsLikelyNotMountPoint g nm (some e)
            ∈ (mountDevice sys dp g opts ⟨s', []⟩).2.trace → IsNotExist e = false →
        (mountDevice sys dp g opts ⟨s', []⟩).1
            = some (Errorf "Rook: Mount volume failed. Error checking if %s is a mount point: %v"
                [g, e.Error])
        ∧ (mountDevice sys dp g opts ⟨s', []⟩).2.trace
            = [Event.IsLikelyNotMountPoint g nm (some e)])
      ∧ (∀ nm e s1, sys.IsLikelyNotMountPoint s' g = ((nm, some e), s1) →
          IsNotExist e = false →
        (mountDevice sys dp g opts ⟨s', []⟩).1
            = some (Errorf "Rook: Mount volume failed. Error checking if %s is a mount point: %v"
                [g, e.Error])
        ∧ (mountDevice sys dp g opts ⟨s', []⟩).2.trace
            = [Event.IsLikelyNotMountPoint g nm (some e)]
        ∧ (mountDevice sys dp g opts ⟨s', []⟩).2.host = s1) := by
  refine ⟨?_, ?_, ?_⟩
  · intro e nm e1 h
    obtain ⟨res, t, h1, h2, hrun⟩ := mount_run_fresh sys g opts s
    obtain ⟨rest, h⟩ := h
    rw [h2] at h
    rw [h1, h2]
    cases hrun with
    | bound out => simp [hostOps, Event.isHostOp] at h
    | bindFails err x tb out hb =>
      cases hb with
      | probeFails nm0 e0 =>
        simp [hostOps, Event.isHostOp] at h
        obtain ⟨rfl, ⟨rfl, rfl⟩, rfl⟩ := h
        simp [hostOps, Event.isHostOp, probeError, bindMountError, Errorf]
      | notMounted re => simp [hostOps, Event.isHostOp] at h
      | unmountFails e2 => simp [hostOps, Event.isHostOp] at h
      | reprobeFails nm0 e3 => simp [hostOps, Event.isHostOp] at h
      | stillMounted => simp [hostOps, Event.isHostOp] at h
      | unmounted re => simp [hostOps, Event.isHostOp] at h
  · intro nm e h hne
    obtain ⟨res, t, h1, h2, hrun⟩ := mountDevice_run_fresh sys dp g opts s'
    rw [h2] at h
    rw [h1, h2]
    cases hrun with
    | probeFails nm0 e0 hne0 =>
      simp at h
      obtain ⟨rfl, rfl⟩ := h
      exact ⟨rfl, rfl⟩
    | mkdirFails nm0 e0 e2 hne0 =>
      simp at h
      obtain ⟨rfl, rfl⟩ := h
      simp [hne] at hne0
    | alreadyMounted => simp at h
    | created nm0 e0 hne0 res tf hf =>
      cases hf <;> (simp at h; obtain ⟨rfl, rfl⟩ := h; simp [hne] at hne0)
    | present res tf hf => cases hf <;> simp at h
  · intro nm e s1 h hne
    simp [mountDevice, callIsLikelyNotMountPoint, h, hne]

/-- Witness of C13: the bind `Mount` fails and the probe of the pod mount
directory is denied; and the probe of the global mount path is denied. -/
theorem probe_failure_stops_witness :
    (mount (tableSystem bindBrokenProbeDenied) sampleGlobalPath sampleOptions
        ⟨stalePodDir, []⟩).1
      = some (Errorf "IsLikelyNotMountPoint check failed: %v" [permissionDenied.Error])
    ∧ ((mountDevice (tableSystem probeDenied) "/dev/rbd0" sampleGlobalPath sampleOptions
          ⟨emptyHost, []⟩).1
        = some (Errorf "Rook: Mount volume failed. Error checking if %s is a mount point: %v"
            [sampleGlobalPath, permissionDenied.Error])
      ∧ (mountDevice (tableSystem probeDenied) "/dev/rbd0" sampleGlobalPath sampleOptions
          ⟨emptyHost, []⟩).2.trace
        = [Event.IsLikelyNotMountPoint sampleGlobalPath true (some permissionDenied)]
      ∧ (mountDevice (tableSystem probeDenied) "/dev/rbd0" sampleGlobalPath sampleOptions
          ⟨emptyHost, []⟩).2.host = emptyHost) :=
  ⟨((probe_failure_stops (tableSystem bindBrokenProbeDenied) "/dev/rbd0" sampleGlobalPath
      sampleOptions stalePodDir emptyHost).1 exitStatus32 true permissionDenied
      ⟨[], by decide⟩).1,
    (probe_failure_stops (tableSystem probeDenied) "/dev/rbd0" sampleGlobalPath
      sampleOptions stalePodDir emptyHost).2.2 true permissionDenied emptyHost rfl rfl⟩

/-- C14. For every request and host, if the probe of the global mount path fails
with a `path does not exist` error, the next call of `mountDevice` is
`MkdirAll(globalVolumeMountPath, 0750)`, a mode that gives `rwx` to the owner,
`r-x` to the group and nothing to others; when the creation succeeds the call
after it is `FormatAndMount(devicePath, globalVolumeMountPath, opts.FsType,
[opts.RW])`, the only `FormatAndMount` call; when the creation fails,
`mountDevice` returns an error built from that failure and issues nothing more,
so no `FormatAndMount`. -/
theorem mountDevice_creates_missing_dir {σ : Type} (sys : System σ) (dp g : String)
    (opts : AttachOptions) (s : σ) (nm : Bool) (e : GoError)
    (hp : Event.IsLikelyNotMountPoint g nm (some e) ∈ (mountDevice sys dp g opts ⟨s, []⟩).2.trace)
    (hne : IsNotExist e = true) :
    ∃ merr rest, (mountDevice sys dp g opts ⟨s, []⟩).2.trace
        = Event.IsLikelyNotMountPoint g nm (some e) :: Event.MkdirAll g 0o750 merr :: rest
      ∧ ((0o750 : Nat) / 64 % 8 = 4 + 2 + 1 ∧ (0o750 : Nat) / 8 % 8 = 4 + 1
        ∧ (0o750 : Nat) % 8 = 0)
      ∧ (merr = none → ∃ ferr tail,
          rest = Event.FormatAndMount dp g opts.FsType [opts.RW] ferr :: tail
          ∧ (mountDevice sys dp g opts ⟨s, []⟩).2.trace.filter Event.isFormatAndMount
            = [Event.FormatAndMount dp g opts.FsType [opts.RW] ferr])
      ∧ (∀ e2, merr = some e2 →
          (mountDevice sys dp g opts ⟨s, []⟩).1
            = some (Errorf
                "Rook: Mount volume failed. Cannot create global volume mount path dir: %v"
                [e2.Error])
          ∧ rest = []
          ∧ ∀ ev ∈ (mountDevice sys dp g opts ⟨s, []⟩).2.trace, ev.isFormatAndMount = false) := by
  obtain ⟨res, t, h1, h2, hrun⟩ := mountDevice_run_fresh sys dp g opts s
  rw [h2] at hp
  rw [h1, h2]
  cases hrun with
  | probeFails nm0 e0 hne0 =>
    simp at hp
    obtain ⟨rfl, rfl⟩ := hp
    simp [hne] at hne0
  | mkdirFails nm0 e0 e2 hne0 =>
    simp at hp
    obtain ⟨rfl, rfl⟩ := hp
    exact ⟨some e2, [], rfl, by decide, by simp, by simp [Event.isFormatAndMount]⟩
  | alreadyMounted => simp at hp
  | present res tf hf => cases hf <;> simp at hp
  | created nm0 e0 hne0 res tf hf =>
    cases hf with
    | formatFails err out re =>
      simp at hp
      obtain ⟨rfl, rfl⟩ := hp
      exact ⟨none, _, rfl, by decide, fun _ => ⟨some err, _, rfl,
        by simp [Event.isFormatAndMount]⟩, by simp⟩
    | formatted out =>
      simp at hp
      obtain ⟨rfl, rfl⟩ := hp
      exact ⟨none, _, rfl, by decide, fun _ => ⟨none, _, rfl,
        by simp [Event.isFormatAndMount]⟩, by simp⟩

/-- Witness of C14: on a host without the global mount directory, the directory
is created with mode 0750 and the device is then formatted and mounted once. -/
theorem mountDevice_creates_missing_dir_witness :
    ∃ merr rest, (mountDevice (tableSystem Faults.none) "/dev/rbd0" sampleGlobalPath
        sampleOptions ⟨emptyHost, []⟩).2.trace
      = Event.IsLikelyNotMountPoint sampleGlobalPath true
          (some (.external "no such file or directory" true))
        :: Event.MkdirAll sampleGlobalPath 0o750 merr :: rest :=
  let ⟨merr, rest, h, _⟩ := mountDevice_creates_missing_dir (tableSystem Faults.none)
    "/dev/rbd0" sampleGlobalPath sampleOptions emptyHost true
    (.external "no such file or directory" true) (by decide) (by decide)
  ⟨merr, rest, h⟩

/-! ## Idempotence of the Global Mounter -/

/-- The simulated host reports its mount table when no probe fault is injected. -/
theorem tableSystem_reports (f : Faults) (hf : f.probe = none) :
    ReportingHost (tableSystem f) Table.mounted where
  probe_answers := by
    intro t file hm
    have hs : (t.mounted file).isSome = true := by
      cases h : t.mounted file with
      | none => exact absurd h hm
      | some v => rfl
    simp [tableSystem, hf, hs]
  probe_truthful := (tableSystem_truthful f).probe_truthful
  probe_keeps := (tableSystem_truthful f).probe_keeps
  log_keeps := (tableSystem_truthful f).log_keeps
  format_mounts := by
    intro t source target fstype options
    simp only [tableSystem]
    cases f.format with
    | some e => simp
    | none => simp [Table.mounted]

/-- On a host that reports its mount table, a `mountDevice` that returns nil
leaves the global mount path in the table. -/
theorem mountDevice_nil_mounted {σ : Type} (sys : System σ)
    (mounted : σ → String → Option String) (hh : ReportingHost sys mounted) (dp g : String)
    (opts : AttachOptions) (w : World σ) (h : (mountDevice sys dp g opts w).1 = none) :
    mounted (mountDevice sys dp g opts w).2.host g ≠ none := by
  revert h
  simp only [mountDevice, mountDeviceFrom, redirectStdout, formatAndMountFn,
    callIsLikelyNotMountPoint, callMkdirAll, callFormatAndMount, callRemove, log]
  have hp1 := hh.probe_truthful w.host g
  have hp2 := hh.probe_keeps w.host g g
  rcases hp : sys.IsLikelyNotMountPoint w.host g with ⟨⟨nm, _ | e⟩, s1⟩
  · rw [hp] at hp1 hp2
    simp only [] at hp1 hp2
    cases nm
    · intro _
      have hm : (mounted w.host g).isNone = false := (hp1 trivial).symm
      simp only [Bool.false_eq_true, if_false]
      rw [hp2]
      intro hnone
      simp [hnone] at hm
    · simp only [if_true]
      have hf := hh.format_mounts s1 dp g opts.FsType [opts.RW]
      rcases hfm : sys.FormatAndMount s1 dp g opts.FsType [opts.RW] with ⟨_ | err, s2⟩
      · rw [hfm] at hf
        intro _
        simp only [hh.log_keeps]
        exact hf rfl
      · simp
  · simp only []
    cases hne : IsNotExist e
    · simp
    · simp only [if_true]
      rcases hm : sys.MkdirAll s1 g 0o750 with ⟨_ | e2, s2⟩
      · simp only []
        have hf := hh.format_mounts s2 dp g opts.FsType [opts.RW]
        rcases hfm : sys.FormatAndMount s2 dp g opts.FsType [opts.RW] with ⟨_ | err, s3⟩
        · rw [hfm] at hf
          intro _
          simp only [hh.log_keeps]
          exact hf rfl
        · simp
      · simp

/-- On a host that reports its mount table, `mountDevice` on a global mount path
that is in the table returns nil after the probe alone, the table unchanged. -/
theorem mountDevice_on_mounted {σ : Type} (sys : System σ)
    (mounted : σ → String → Option String) (hh : ReportingHost sys mounted) (dp g : String)
    (opts : AttachOptions) (s : σ) (hm : mounted s g ≠ none) :
    (mountDevice sys dp g opts ⟨s, []⟩).1 = none
      ∧ (mountDevice sys dp g opts ⟨s, []⟩).2.trace = [Event.IsLikelyNotMountPoint g false none]
      ∧ ∀ p, mounted (mountDevice sys dp g opts ⟨s, []⟩).2.host p = mounted s p := by
  have ha := hh.probe_answers s g hm
  have ht := hh.probe_truthful s g ha
  have hk := hh.probe_keeps s g
  have hfalse : (sys.IsLikelyNotMountPoint s g).1.1 = false := by
    rw [ht]
    cases h : mounted s g with
    | none => exact absurd h hm
    | some v => rfl
  simp only [mountDevice, mountDeviceFrom, callIsLikelyNotMountPoint]
  rw [ha]
  simp only [hfalse, Bool.false_eq_true, if_false, List.nil_append]
  exact ⟨trivial, trivial, hk⟩

/-- C12. On a host whose probe reports the mount table (a path in the table is
reported as a mount point, and an answer of the probe is truthful), where the
probe and logging leave the table alone and a successful
`FormatAndMount(device, path, ...)` puts `path` in the table, for every device,
path and options: after a `mountDevice` that returns nil, a second `mountDevice`
with the same arguments returns nil, its only call is the probe (no
`FormatAndMount`, no directory creation, no removal), and the mount table it
leaves is the one the first call left. -/
theorem mountDevice_twice {σ : Type} (sys : System σ)
    (mounted : σ → String → Option String) (hh : ReportingHost sys mounted) (dp g : String)
    (opts : AttachOptions) (s : σ) (h : (mountDevice sys dp g opts ⟨s, []⟩).1 = none) :
    (mountDevice sys dp g opts ⟨(mountDevice sys dp g opts ⟨s, []⟩).2.host, []⟩).1 = none
      ∧ (mountDevice sys dp g opts ⟨(mountDevice sys dp g opts ⟨s, []⟩).2.host, []⟩).2.trace
        = [Event.IsLikelyNotMountPoint g false none]
      ∧ (∀ ev ∈ (mountDevice sys dp g opts
            ⟨(mountDevice sys dp g opts ⟨s, []⟩).2.host, []⟩).2.trace,
          ev.isFormatAndMount = false ∧ ev.isMkdirAll = false ∧ ev.isRemove = false)
      ∧ ∀ p, mounted (mountDevice sys dp g opts
            ⟨(mountDevice sys dp g opts ⟨s, []⟩).2.host, []⟩).2.host p
          = mounted (mountDevice sys dp g opts ⟨s, []⟩).2.host p := by
  have hm := mountDevice_nil_mounted sys mounted hh dp g opts ⟨s, []⟩ h
  obtain ⟨h1, h2, h3⟩ := mountDevice_on_mounted sys mounted hh dp g opts _ hm
  refine ⟨h1, h2, ?_, h3⟩
  rw [h2]
  simp [Event.isFormatAndMount, Event.isMkdirAll, Event.isRemove]

/-- Witness of C12: the first call creates the directory, formats and mounts;
the second call only probes. -/
theorem mountDevice_twice_witness :
    ReportingHost (tableSystem Faults.none) Table.mounted
      ∧ (mountDevice (tableSystem Faults.none) "/dev/rbd0" sampleGlobalPath sampleOptions
          ⟨(mountDevice (tableSystem Faults.none) "/dev/rbd0" sampleGlobalPath sampleOptions
            ⟨emptyHost, []⟩).2.host, []⟩).2.trace
        = [Event.IsLikelyNotMountPoint sampleGlobalPath false none] :=
  ⟨tableSystem_reports _ rfl,
    (mountDevice_twice (tableSystem Faults.none) Table.mounted (tableSystem_reports _ rfl)
      "/dev/rbd0" sampleGlobalPath sampleOptions emptyHost (by decide)).2.1⟩

/-! ## The OSD pod template -/

/-- Appending one element under a condition. -/
theorem ite_append_one {α : Type} (c : Prop) [Decidable c] (l : List α) (x : α) :
    (if c then l ++ [x] else l) = l ++ (if c then [x] else []) := by
  split <;> simp

/-- The environment of `osdContainer`: the nine base variables, the device
selection, then variables with other names. -/
theorem osdContainer_env (k : Deps) (c : Cluster) (devices : List Device)
    (directories : List Directory) (selection : Selection) (config : Config) :
    ∃ rest, (osdContainer k c devices directories selection config).Env
        = baseEnvVars k c ++ deviceSelectionEnvVars k devices selection ++ rest
      ∧ ∀ v ∈ rest, v.Name ≠ "ROOK_DATA_DEVICES" ∧ v.Name ≠ "ROOK_DATA_DEVICE_FILTER" := by
  refine ⟨(if selection.MetadataDevice ≠ "" then
        [metadataDeviceEnvVar selection.MetadataDevice] else [])
      ++ (if directories.length > 0 then
        [dataDirectoriesEnvVar (Join (directories.map (fun d => d.Path)) ",")] else [])
      ++ (if config.StoreConfig.StoreType ≠ "" then
        [osdStoreEnvVar config.StoreConfig.StoreType] else [])
      ++ (if config.StoreConfig.DatabaseSizeMB ≠ 0 then
        [osdDatabaseSizeEnvVar config.StoreConfig.DatabaseSizeMB] else [])
      ++ (if config.StoreConfig.WalSizeMB ≠ 0 then
        [osdWalSizeEnvVar config.StoreConfig.WalSizeMB] else [])
      ++ (if config.StoreConfig.JournalSizeMB ≠ 0 then
        [osdJournalSizeEnvVar config.StoreConfig.JournalSizeMB] else [])
      ++ (if config.Location ≠ "" then [locationEnvVar config.Location] else []), ?_, ?_⟩
  · unfold osdContainer
    simp -zeta only [ite_append_one]
    simp only [List.append_assoc]
  · intro v hv
    simp only [List.mem_append] at hv
    rcases hv with (((((hv | hv) | hv) | hv) | hv) | hv) | hv <;>
      (split at hv
       · simp at hv
         subst hv
         simp [metadataDeviceEnvVar, dataDirectoriesEnvVar, osdStoreEnvVar,
           osdDatabaseSizeEnvVar, osdWalSizeEnvVar, osdJournalSizeEnvVar, locationEnvVar]
       · simp at hv)

/-- No variable of a list carries a name that none of its variables has. -/
theorem envNamed_eq_nil (name : String) (env : List EnvVar) (h : ∀ v ∈ env, v.Name ≠ name) :
    envNamed name env = [] := by
  simp only [envNamed, List.filter_eq_nil_iff]
  intro v hv
  simpa using h v hv

/-- C15. For every device list, selection and configuration, provided none of
the base variables supplied by `k8sutil` and `opmon` is named
`ROOK_DATA_DEVICES` or `ROOK_DATA_DEVICE_FILTER`: the environment built by
`osdContainer` holds at most one variable under these two names; with a
non-empty device list it holds `ROOK_DATA_DEVICES`, valued with the device names
joined by `,` in list order, and no `ROOK_DATA_DEVICE_FILTER`; otherwise with a
non-empty `selection.DeviceFilter` it holds `ROOK_DATA_DEVICE_FILTER` valued
with that filter; otherwise when `getUseAllDevices` holds it holds
`ROOK_DATA_DEVICE_FILTER` valued `all`; otherwise it holds neither. -/
theorem osdContainer_device_selection (k : Deps) (c : Cluster) (devices : List Device)
    (directories : List Directory) (selection : Selection) (config : Config)
    (hbase : ∀ v ∈ baseEnvVars k c,
      v.Name ≠ "ROOK_DATA_DEVICES" ∧ v.Name ≠ "ROOK_DATA_DEVICE_FILTER") :
    (envNamed "ROOK_DATA_DEVICES"
          (osdContainer k c devices directories selection config).Env
        ++ envNamed "ROOK_DATA_DEVICE_FILTER"
          (osdContainer k c devices directories selection config).Env).length ≤ 1
      ∧ (devices ≠ [] →
          envNamed "ROOK_DATA_DEVICES"
              (osdContainer k c devices directories selection config).Env
            = [⟨"ROOK_DATA_DEVICES", ",".intercalate (devices.map (fun d => d.Name)), none⟩]
          ∧ envNamed "ROOK_DATA_DEVICE_FILTER"
              (osdContainer k c devices directories selection config).Env = [])
      ∧ (devices = [] → selection.DeviceFilter ≠ "" →
          envNamed "ROOK_DATA_DEVICES"
              (osdContainer k c devices directories selection config).Env = []
          ∧ envNamed "ROOK_DATA_DEVICE_FILTER"
              (osdContainer k c devices directories selection config).Env
            = [⟨"ROOK_DATA_DEVICE_FILTER", selection.DeviceFilter, none⟩])
      ∧ (devices = [] → selection.DeviceFilter = "" → k.getUseAllDevices selection = true →
          envNamed "ROOK_DATA_DEVICES"
              (osdContainer k c devices directories selection config).Env = []
          ∧ envNamed "ROOK_DATA_DEVICE_FILTER"
              (osdContainer k c devices directories selection config).Env
            = [⟨"ROOK_DATA_DEVICE_FILTER", "all", none⟩])
      ∧ (devices = [] → selection.DeviceFilter = "" → k.getUseAllDevices selection = false →
          envNamed "ROOK_DATA_DEVICES"
              (osdContainer k c devices directories selection config).Env = []
          ∧ envNamed "ROOK_DATA_DEVICE_FILTER"
              (osdContainer k c devices directories selection config).Env = []) := by
  obtain ⟨rest, henv, hrest⟩ := osdContainer_env k c devices directories selection config
  have hb1 := envNamed_eq_nil "ROOK_DATA_DEVICES" _ (fun v hv => (hbase v hv).1)
  have hb2 := envNamed_eq_nil "ROOK_DATA_DEVICE_FILTER" _ (fun v hv => (hbase v hv).2)
  have hr1 := envNamed_eq_nil "ROOK_DATA_DEVICES" _ (fun v hv => (hrest v hv).1)
  have hr2 := envNamed_eq_nil "ROOK_DATA_DEVICE_FILTER" _ (fun v hv => (hrest v hv).2)
  have hsplit : ∀ name, envNamed name (osdContainer k c devices directories selection config).Env
      = envNamed name (baseEnvVars k c)
        ++ envNamed name (deviceSelectionEnvVars k devices selection)
        ++ envNamed name rest := by
    intro name
    rw [henv]
    simp [envNamed, List.filter_append]
  rw [hsplit, hsplit, hb1, hb2, hr1, hr2]
  simp only [List.nil_append, List.append_nil]
  cases devices with
  | cons d ds =>
    simp [deviceSelectionEnvVars, envNamed, dataDevicesEnvVar, Join]
  | nil =>
    by_cases hf : selection.DeviceFilter = ""
    · cases hu : k.getUseAllDevices selection <;>
        simp [deviceSelectionEnvVars, envNamed, deviceFilterEnvVar, hf, hu]
    · simp [deviceSelectionEnvVars, envNamed, deviceFilterEnvVar, hf]

/-- Witness of C15: two devices, with the names `k8sutil` and `opmon` give to
the base variables. -/
theorem osdContainer_device_selection_witness :
    envNamed "ROOK_DATA_DEVICES"
        (osdContainer sampleDeps sampleCluster [⟨"sda"⟩, ⟨"sdb"⟩] [] ⟨none, "", ""⟩
          emptyConfig).Env
      = [⟨"ROOK_DATA_DEVICES", ",".intercalate ([⟨"sda"⟩, ⟨"sdb"⟩].map (fun d : Device => d.Name)),
          none⟩] :=
  ((osdContainer_device_selection sampleDeps sampleCluster [⟨"sda"⟩, ⟨"sdb"⟩] [] ⟨none, "", ""⟩
    emptyConfig (by decide)).2.1 (by simp)).1

/-- The loop over the directories appends one volume for each, in order. -/
theorem appendDirVolumes_eq (k : Deps) (volumes : List Volume) (directories : List Directory) :
    appendDirVolumes k volumes directories
      = volumes ++ directories.map (fun d =>
          { Name := k.PathToVolumeName d.Path
            VolumeSource := { EmptyDir := false, HostPath := some d.Path, ConfigMap := none } }) := by
  unfold appendDirVolumes
  induction directories generalizing volumes with
  | nil => simp
  | cons d ds ih => simp [List.foldl_cons, ih]

/-- The loop over the directories appends one volume mount for each, in order. -/
theorem appendDirMounts_eq (k : Deps) (volumeMounts : List VolumeMount)
    (directories : List Directory) :
    appendDirMounts k volumeMounts directories
      = volumeMounts ++ directories.map (fun d =>
          { Name := k.PathToVolumeName d.Path, MountPath := d.Path }) := by
  unfold appendDirMounts
  induction directories generalizing volumeMounts with
  | nil => simp
  | cons d ds ih => simp [List.foldl_cons, ih]

/-- The volume mounts of `osdContainer`: three fixed ones, then one for each directory. -/
theorem osdContainer_volumeMounts (k : Deps) (c : Cluster) (devices : List Device)
    (directories : List Directory) (selection : Selection) (config : Config) :
    (osdContainer k c devices directories selection config).VolumeMounts
      = [{ Name := k.DataDirVolume, MountPath := k.DataDir },
          { Name := "devices", MountPath := "/dev" },
          k.ConfigOverrideMount]
        ++ directories.map (fun d =>
          { Name := k.PathToVolumeName d.Path, MountPath := d.Path }) := by
  unfold osdContainer
  simp -zeta only []
  cases directories with
  | nil => simp
  | cons d ds => simp [appendDirMounts_eq]

/-- C16. For every list of directories, the pod spec that `podTemplateSpec`
builds and hands to the placement has three volumes followed by one volume for
each directory, and one container, the OSD container, which has three volume
mounts followed by one for each directory; for every `i`, the volume and the
volume mount at index `3 + i` both carry the name
`PathToVolumeName(directories[i].Path)`, the volume being the host path
`directories[i].Path` and the mount path being `directories[i].Path`. -/
theorem podTemplateSpec_directory_volumes (k : Deps) (c : Cluster) (devices : List Device)
    (directories : List Directory) (selection : Selection) (config : Config) :
    (podTemplateSpec k c devices directories selection config).Spec
        = k.ApplyToPodSpec (podSpecBeforePlacement k c devices directories selection config)
      ∧ (podSpecBeforePlacement k c devices directories selection config).Volumes.length
        = 3 + directories.length
      ∧ (podSpecBeforePlacement k c devices directories selection config).Containers
        = [osdContainer k c devices directories selection config]
      ∧ (osdContainer k c devices directories selection config).VolumeMounts.length
        = 3 + directories.length
      ∧ ∀ i d, directories[i]? = some d →
          (podSpecBeforePlacement k c devices directories selection config).Volumes[3 + i]?
            = some { Name := k.PathToVolumeName d.Path
                     VolumeSource := { EmptyDir := false, HostPath := some d.Path,
                                       ConfigMap := none } }
          ∧ (osdContainer k c devices directories selection config).VolumeMounts[3 + i]?
            = some { Name := k.PathToVolumeName d.Path, MountPath := d.Path } := by
  have hv : (podSpecBeforePlacement k c devices directories selection config).Volumes
      = [{ Name := k.DataDirVolume
           VolumeSource :=
             if c.dataDirHostPath ≠ "" then
               { EmptyDir := false, HostPath := some c.dataDirHostPath, ConfigMap := none }
             else { EmptyDir := true, HostPath := none, ConfigMap := none } },
          { Name := "devices"
            VolumeSource := { EmptyDir := false, HostPath := some "/dev", ConfigMap := none } },
          k.ConfigOverrideVolume]
        ++ directories.map (fun d =>
          { Name := k.PathToVolumeName d.Path
            VolumeSource := { EmptyDir := false, HostPath := some d.Path, ConfigMap := none } }) := by
    simp only [podSpecBeforePlacement, appendDirVolumes_eq]
  have hm := osdContainer_volumeMounts k c devices directories selection config
  refine ⟨rfl, ?_, rfl, ?_, ?_⟩
  · rw [hv]
    simp
    omega
  · rw [hm]
    simp
    omega
  · intro i d hd
    rw [hv, hm]
    constructor
    · rw [List.getElem?_append_right (by simp)]
      simp [hd]
    · rw [List.getElem?_append_right (by simp)]
      simp [hd]

/-- Witness of C16: two directories. -/
theorem podTemplateSpec_directory_volumes_witness :
    (podSpecBeforePlacement sampleDeps sampleCluster [] [⟨"/mnt/a"⟩, ⟨"/mnt/b"⟩] ⟨none, "", ""⟩
        emptyConfig).Volumes.length = 3 + 2 :=
  (podTemplateSpec_directory_volumes sampleDeps sampleCluster [] [⟨"/mnt/a"⟩, ⟨"/mnt/b"⟩]
    ⟨none, "", ""⟩ emptyConfig).2.1

end Rookflex
